import Mathlib

/-!
Verification development for the Overwatch-Terminal repository.

The repository is a Node.js dashboard-automation pipeline.  This file gives a
shallow embedding of the parts of the code that the specification's testable
properties talk about:

* scripts/fetch-data.js   — the fetch/merge cycle (adapters, manual-field
  preservation, kill-switch derivation, health ledger, escalation threshold);
* scripts/apply-analysis.js — the approval/patch engine (scorecard and
  kill-switch deltas, probability adjustment, timeline-event dedup,
  qualitative HTML replacement);
* the XRPL-native ingestion variant — the BigInt fee-burn subtraction;
* scripts/x402-merchant.js — the paywall invoice store;
* the x402 agent's spending guardrails (modelled from the spec, see below).

JSON documents are embedded as association lists of string keys to a `JVal`
inductive.  JavaScript numbers are embedded as `JN`: exact rationals extended
with NaN and the two infinities, which is enough to state the division-guard
properties exactly (no bit-level float rounding is relied on by any theorem).
Network and file I/O are factored out: every fetcher takes the outcome of its
upstream call as an explicit `Except`/parameter, exactly at the boundary where
the JavaScript code awaits a response.
-/

namespace Overwatch

/-- Association-list lookup: first binding of the key, if any.  Models
reading a property of a JavaScript object / Map. -/
def alistLookup {α : Type} : List (String × α) → String → Option α
  | [], _ => none
  | p :: rest, k => if p.1 = k then some p.2 else alistLookup rest k

/-- Association-list update: replaces the first binding of the key in place,
or appends a new binding.  Models JavaScript property assignment, which keeps
the key's position when the key already exists. -/
def alistUpsert {α : Type} : List (String × α) → String → α → List (String × α)
  | [], k, v => [(k, v)]
  | p :: rest, k, v =>
      if p.1 = k then (k, v) :: rest
      else p :: alistUpsert rest k v

/-- Association-list removal of every binding of the key.  Models
JavaScript Map.delete. -/
def alistErase {α : Type} : List (String × α) → String → List (String × α)
  | [], _ => []
  | p :: rest, k =>
      if p.1 = k then alistErase rest k
      else p :: alistErase rest k

theorem alistLookup_upsert_same {α : Type} (l : List (String × α)) (k : String)
    (v : α) : alistLookup (alistUpsert l k v) k = some v := by
  induction l with
  | nil => simp [alistUpsert, alistLookup]
  | cons p rest ih =>
      by_cases h : p.1 = k
      · simp [alistUpsert, alistLookup, h]
      · simp [alistUpsert, alistLookup, h, ih]

theorem alistLookup_upsert_other {α : Type} (l : List (String × α))
    (k k' : String) (v : α) (hne : k' ≠ k) :
    alistLookup (alistUpsert l k v) k' = alistLookup l k' := by
  induction l with
  | nil => simp [alistUpsert, alistLookup, Ne.symm hne]
  | cons p rest ih =>
      by_cases h : p.1 = k
      · subst h
        simp [alistUpsert, alistLookup, Ne.symm hne]
      · by_cases h2 : p.1 = k'
        · simp [alistUpsert, alistLookup, h, h2, hne]
        · simp [alistUpsert, alistLookup, h, h2, ih]

theorem alistLookup_erase_same {α : Type} (l : List (String × α)) (k : String) :
    alistLookup (alistErase l k) k = none := by
  induction l with
  | nil => simp [alistErase, alistLookup]
  | cons p rest ih =>
      by_cases h : p.1 = k
      · simpa [alistErase, h] using ih
      · simp [alistErase, alistLookup, h, ih]

/-- Extended JavaScript numbers: exact rationals plus NaN and infinities.
Bit-level double rounding is not modelled; no theorem in this file depends
on it (the division-guard and precision claims are about null / zero / NaN /
Infinity propagation and about BigInt integer arithmetic). -/
inductive JN where
  | nan : JN
  | inf : JN
  | ninf : JN
  | num : ℚ → JN
deriving DecidableEq, Repr

/-- JavaScript division on extended numbers (IEEE-style; negative zero is not
distinguished, which no embedded code path observes). -/
def jsDiv : JN → JN → JN
  | JN.nan, _ => JN.nan
  | _, JN.nan => JN.nan
  | JN.inf, JN.inf => JN.nan
  | JN.inf, JN.ninf => JN.nan
  | JN.ninf, JN.inf => JN.nan
  | JN.ninf, JN.ninf => JN.nan
  | JN.inf, JN.num b => if b < 0 then JN.ninf else JN.inf
  | JN.ninf, JN.num b => if b < 0 then JN.inf else JN.ninf
  | JN.num _, JN.inf => JN.num 0
  | JN.num _, JN.ninf => JN.num 0
  | JN.num a, JN.num b =>
      if b = 0 then (if a = 0 then JN.nan else if 0 < a then JN.inf else JN.ninf)
      else JN.num (a / b)

/-- JavaScript multiplication on extended numbers. -/
def jsMul : JN → JN → JN
  | JN.nan, _ => JN.nan
  | _, JN.nan => JN.nan
  | JN.inf, JN.inf => JN.inf
  | JN.inf, JN.ninf => JN.ninf
  | JN.ninf, JN.inf => JN.ninf
  | JN.ninf, JN.ninf => JN.inf
  | JN.inf, JN.num b => if b = 0 then JN.nan else if 0 < b then JN.inf else JN.ninf
  | JN.num a, JN.inf => if a = 0 then JN.nan else if 0 < a then JN.inf else JN.ninf
  | JN.ninf, JN.num b => if b = 0 then JN.nan else if 0 < b then JN.ninf else JN.inf
  | JN.num a, JN.ninf => if a = 0 then JN.nan else if 0 < a then JN.ninf else JN.inf
  | JN.num a, JN.num b => JN.num (a * b)

/-- JavaScript addition on extended numbers. -/
def jsAdd : JN → JN → JN
  | JN.nan, _ => JN.nan
  | _, JN.nan => JN.nan
  | JN.inf, JN.ninf => JN.nan
  | JN.ninf, JN.inf => JN.nan
  | JN.inf, _ => JN.inf
  | _, JN.inf => JN.inf
  | JN.ninf, _ => JN.ninf
  | _, JN.ninf => JN.ninf
  | JN.num a, JN.num b => JN.num (a + b)

/-- JavaScript subtraction on extended numbers. -/
def jsSub : JN → JN → JN
  | JN.nan, _ => JN.nan
  | _, JN.nan => JN.nan
  | JN.inf, JN.inf => JN.nan
  | JN.ninf, JN.ninf => JN.nan
  | JN.inf, _ => JN.inf
  | JN.ninf, _ => JN.ninf
  | _, JN.inf => JN.ninf
  | _, JN.ninf => JN.inf
  | JN.num a, JN.num b => JN.num (a - b)

/-- Math.round: nearest integer, ties toward positive infinity. -/
def jsRound : JN → JN
  | JN.num q => JN.num ((⌊q + 1 / 2⌋ : ℤ) : ℚ)
  | x => x

/-- Composition parseFloat(x.toFixed(d)) used by the fetch script: rounds to d
decimal places (ties pick the larger result, per Number.prototype.toFixed) and
maps NaN / Infinity through the string round-trip unchanged. -/
def pfToFixed (d : Nat) : JN → JN
  | JN.num q => JN.num (((round (q * (10 : ℚ) ^ d) : ℤ) : ℚ) / (10 : ℚ) ^ d)
  | x => x

/-- Embedded JSON / in-memory JavaScript values.  NaN and Infinity cannot
appear inside a persisted JSON document (JSON.stringify writes them as null),
so `JVal` carries exact rationals; adapter-internal arithmetic that can
produce non-finite numbers is done on `JN` before conversion. -/
inductive JVal where
  | jnull : JVal
  | jbool : Bool → JVal
  | jnum : ℚ → JVal
  | jstr : String → JVal
  | jarr : List JVal → JVal
  | jobj : List (String × JVal) → JVal

/-- Property read on an object field list, with absent and null both mapping
to null: models the pervasive pattern obj?.k ?? null. -/
def getJ (fields : List (String × JVal)) (k : String) : JVal :=
  (alistLookup fields k).getD JVal.jnull

/-- Property read through a JVal: non-objects have no properties
(optional-chaining yields undefined, coalesced to null at every use site in
the embedded code). -/
def getJv (v : JVal) (k : String) : JVal :=
  match v with
  | JVal.jobj fields => getJ fields k
  | _ => JVal.jnull

/-- Nullish coalescing a ?? b restricted to null (the embedded documents have
no undefined distinct from null). -/
def coalesceJ (a b : JVal) : JVal :=
  match a with
  | JVal.jnull => b
  | v => v

/-- JavaScript truthiness test on embedded values (!v). -/
def isFalsyJ : JVal → Bool
  | JVal.jnull => true
  | JVal.jbool b => !b
  | JVal.jnum q => q == 0
  | JVal.jstr s => s == ""
  | JVal.jarr _ => false
  | JVal.jobj _ => false

/-- Conversion of an extended number to a stored value: finite numbers are
kept exactly; NaN and the infinities serialize to null under JSON.stringify.
Adapter code that consumes a possibly-non-finite number before serialization
works on `JN` directly. -/
def jnOfJN : JN → JVal
  | JN.num q => JVal.jnum q
  | _ => JVal.jnull

/-- ASCII lower-casing of a string (String.prototype.toLowerCase on the
ASCII range, the only range the embedded data uses). -/
def toLowerStr (s : String) : String :=
  String.mk (s.data.map Char.toLower)

/-- Substring containment on character lists (String.prototype.includes). -/
def containsSubAux : List Char → List Char → Bool
  | [], needle => needle.isEmpty
  | hay :: t, needle =>
      if needle.isPrefixOf (hay :: t) then true else containsSubAux t needle

/-- Substring containment (String.prototype.includes). -/
def containsSub (hay needle : String) : Bool :=
  containsSubAux hay.data needle.data

/-- Decimal digit test. -/
def isDigitC (c : Char) : Bool :=
  '0' ≤ c && c ≤ '9'

/-- Numeric value of a digit list, most significant first. -/
def natOfDigits (l : List Char) : Nat :=
  l.foldl (fun acc c => acc * 10 + (c.toNat - ('0').toNat)) 0

/-- Fractional value of a digit list read after a decimal point. -/
def fracOfDigits (l : List Char) : ℚ :=
  (natOfDigits l : ℚ) / (10 : ℚ) ^ l.length

/-- JavaScript parseFloat restricted to the shapes the fetch script feeds it
(an optional sign, digits, an optional fraction; trailing characters ignored;
no parsable prefix gives NaN).  Exponents and special words are not produced
by the regex captures the script parses. -/
def parseFloatQ (s : String) : JN :=
  let cs := s.data.dropWhile (fun c => c.toNat = 32)
  let (neg, cs1) :=
    match cs with
    | '-' :: rest => (true, rest)
    | '+' :: rest => (false, rest)
    | rest => (false, rest)
  let intPart := cs1.takeWhile isDigitC
  let rest1 := cs1.dropWhile isDigitC
  let fracPart :=
    match rest1 with
    | '.' :: r => r.takeWhile isDigitC
    | _ => []
  if intPart.isEmpty && fracPart.isEmpty then JN.nan
  else
    let v : ℚ := (natOfDigits intPart : ℚ) + fracOfDigits fracPart
    JN.num (if neg then -v else v)

/-- Comma removal, s.replace(/,/g, ''). -/
def stripCommas (s : String) : String :=
  String.mk (s.data.filter (fun c => c != ','))

/-- Coercion of a stored value to a number as JavaScript arithmetic does it:
null coerces to 0, booleans to 0/1; strings and containers do not occur in
the numeric slots the embedded code adds and are mapped to NaN. -/
def jvArith : JVal → JN
  | JVal.jnull => JN.num 0
  | JVal.jnum q => JN.num q
  | JVal.jbool b => JN.num (if b then 1 else 0)
  | _ => JN.nan

namespace FetchData

/-- Record returned by scripts/fetch-data.js fetchXRP on failure when no
previous record exists (the documented all-null default). -/
def xrpNullDefault : JVal :=
  JVal.jobj
    [("price", JVal.jnull), ("change_24h", JVal.jnull),
     ("volume_24h", JVal.jnull), ("market_cap", JVal.jnull)]

/-- scripts/fetch-data.js fetchXRP (lines 131-150).  The outcome of the
retried HTTP+JSON call is the explicit first argument: the catch-all
try/catch of the source is the Except match, so the function is total.
On failure it returns fallback?.xrp ?? the all-null default and marks the
xrp health slot fail; a response without a usable ripple field is the same
failure path (the shape check throws into the same catch). -/
def fetchXRP (upstream : Except String JVal)
    (existing : List (String × JVal)) : JVal × String :=
  let fallbackRec := coalesceJ (getJ existing "xrp") xrpNullDefault
  match upstream with
  | Except.error _ => (fallbackRec, "fail")
  | Except.ok data =>
      let r := getJv data "ripple"
      if isFalsyJ r then (fallbackRec, "fail")
      else
        (JVal.jobj
          [("price", getJv r "usd"),
           ("change_24h", getJv r "usd_24h_change"),
           ("volume_24h", getJv r "usd_24h_vol"),
           ("market_cap", getJv r "usd_market_cap")], "ok")

/-- First observation whose value field is neither "." nor the empty string
(data?.observations?.find in fetchFRED); a non-array observations slot takes
the failure path (None). -/
def findObs (v : JVal) : Option JVal :=
  match v with
  | JVal.jarr l =>
      l.find? (fun o =>
        match getJv o "value" with
        | JVal.jstr s => s != "." && s != ""
        | _ => true)
  | _ => none

/-- scripts/fetch-data.js fetchFRED (lines 274-296) for one series.  hasKey
models whether FRED_API_KEY is set; upstream is the retried call outcome;
fallbackValue is the caller's existing?.macro?.X value (null when absent).
No key gives the skip path; an upstream error, or a response without a valid
observation, gives the fail path returning fallbackValue ?? null. -/
def fetchFRED (hasKey : Bool) (upstream : Except String JVal)
    (fallbackValue : JVal) : JVal × String :=
  if !hasKey then (fallbackValue, "skip")
  else
    match upstream with
    | Except.error _ => (fallbackValue, "fail")
    | Except.ok data =>
        match findObs (getJv data "observations") with
        | none => (fallbackValue, "fail")
        | some obs =>
            let s :=
              match getJv obs "value" with
              | JVal.jstr sv => sv
              | _ => ""
            (jnOfJN (parseFloatQ s), "ok")

/-- In-memory record built by the success path of fetchISharesETF
(scripts/fetch-data.js lines 333-367).  Numeric fields are extended numbers
because nav_per_share and the flow fields are consumed before serialization
and can be non-finite. -/
structure ISharesRec where
  source : String
  ticker : String
  as_of_date : Option String
  total_aum : JN
  shares_outstanding : JN
  nav_per_share : JN
  daily_flow : Option JN
  weekly_net_flow : Option JN
  daily_flow_history : List (String × Option JN)
deriving Repr, DecidableEq

/-- Flow history loaded from the previous record: entries with a string date;
null flows (which JSON serialization of non-finite numbers produces) are kept
as None and coerce to 0 when summed, as JavaScript + does. -/
def loadHistory (v : JVal) : List (String × Option JN) :=
  match v with
  | JVal.jarr l =>
      l.filterMap (fun e =>
        match getJv e "date" with
        | JVal.jstr d =>
            some (d,
              match getJv e "flow" with
              | JVal.jnum q => some (JN.num q)
              | _ => none)
        | _ => none)
  | _ => []

/-- Sum of the flow fields of history entries,
reduce((s, d) => s + d.flow, 0): a null flow coerces to 0. -/
def sumFlows (l : List (String × Option JN)) : JN :=
  l.foldl (fun s e => jsAdd s ((e.2).getD (JN.num 0))) (JN.num 0)

/-- Success-path computation of fetchISharesETF (scripts/fetch-data.js lines
333-367): the two regex captures arrive as the raw matched strings, the
as-of date as an optional ISO day, and the previous record
(fallback?.[fallbackKey] ?? an empty object) as a document value.  The
NAV-per-share division total_aum / shares_outstanding is written exactly as
in the source: it has no zero guard. -/
def iSharesCompute (label : String) (sharesStr assetStr : String)
    (asOf : Option String) (prev : JVal) : ISharesRec :=
  let shares_outstanding := parseFloatQ (stripCommas sharesStr)
  let total_aum := parseFloatQ (stripCommas assetStr)
  let nav_per_share := jsDiv total_aum shares_outstanding
  let prevAsOf : Option String :=
    match getJv prev "as_of_date" with
    | JVal.jstr s => some s
    | _ => none
  let prevShares : Option JN :=
    match getJv prev "shares_outstanding" with
    | JVal.jnum q => some (JN.num q)
    | _ => none
  let hist0 := loadHistory (getJv prev "daily_flow_history")
  let advanced :=
    match asOf, prevShares with
    | some d, some ps =>
        if some d ≠ prevAsOf then some (d, ps) else none
    | _, _ => none
  let (daily_flow, hist1) :=
    match advanced with
    | some (d, ps) =>
        let flow := jsMul (jsSub shares_outstanding ps) nav_per_share
        let pushed := hist0 ++ [(d, some flow)]
        (some flow, if pushed.length > 14 then pushed.tail else pushed)
    | none =>
        (match hist0.getLast? with
         | some e => e.2
         | none => none, hist0)
  let last5 := hist1.drop (hist1.length - 5)
  let weekly_net_flow :=
    if 1 ≤ last5.length then some (sumFlows last5) else none
  { source := "ishares-" ++ toLowerStr label
    ticker := label
    as_of_date := asOf
    total_aum := total_aum
    shares_outstanding := shares_outstanding
    nav_per_share := nav_per_share
    daily_flow := daily_flow
    weekly_net_flow := weekly_net_flow
    daily_flow_history := hist1 }

/-- scripts/fetch-data.js pct (lines 773-776): the kill-switch
percentage-complete helper.  Null operands and a zero target give null;
numeric operands give Math.round((current / target) * 100). -/
def pct (current target : JVal) : JVal :=
  match current, target with
  | JVal.jnull, _ => JVal.jnull
  | _, JVal.jnull => JVal.jnull
  | JVal.jnum c, JVal.jnum t =>
      if t = 0 then JVal.jnull
      else jnOfJN (jsRound (jsMul (jsDiv (JN.num c) (JN.num t)) (JN.num 100)))
  | _, _ => JVal.jnull

/-- Status of a numeric kill switch: NEEDS_DATA when the current value is
null, HIT when it reaches the target, TRACKING otherwise.  (Non-numeric,
non-null current values do not occur in the documents the cycle builds.) -/
def ksStatus (current : JVal) (target : ℚ) : String :=
  match current with
  | JVal.jnull => "NEEDS_DATA"
  | JVal.jnum q => if target ≤ q then "HIT" else "TRACKING"
  | _ => "TRACKING"

/-- Clarity-act evaluation of fetch-data.js line 819,
clarity?.toLowerCase().includes(passed): a string answers whether it
contains passed after lower-casing; null or undefined short-circuits the
optional chain to undefined (falsy, so PENDING); any other value throws a
TypeError — toLowerCase is not a function on it — which aborts the cycle. -/
def clarityStatus : JVal → Except String Bool
  | JVal.jstr s => Except.ok (containsSub (toLowerStr s) "passed")
  | JVal.jnull => Except.ok false
  | _ => Except.error "TypeError: clarity.toLowerCase is not a function"

/-- scripts/fetch-data.js buildKillSwitches (lines 778-822), with the
targets of scripts/config.js KILL_SWITCH_TARGETS inlined as the source
requires them.  The clarity-act status evaluation can throw (see
clarityStatus), so the builder returns Except: the error aborts main before
anything is written. -/
def buildKillSwitches (manual : List (String × JVal))
    (rlusd etf : List (String × JVal)) : Except String JVal :=
  let odl := getJ manual "odl_volume_annualized"
  let rlusdC := coalesceJ (getJ rlusd "market_cap") (getJ manual "rlusd_circulation")
  let etfAum := coalesceJ (getJ etf "total_aum") (getJ manual "xrp_etf_aum")
  let dex := getJ manual "permissioned_dex_institutions"
  let clarity := coalesceJ (getJ manual "clarity_act_status") (JVal.jstr "pending")
  match clarityStatus clarity with
  | Except.error e => Except.error e
  | Except.ok clarityHit =>
      Except.ok (JVal.jobj
        [("odl_volume", JVal.jobj
            [("target", JVal.jnum 25000000000),
             ("current", odl),
             ("deadline", JVal.jstr "2026-12-31"),
             ("status", JVal.jstr (ksStatus odl 25000000000)),
             ("pct_complete", pct odl (JVal.jnum 25000000000))]),
         ("rlusd_circulation", JVal.jobj
            [("target", JVal.jnum 5000000000),
             ("current", rlusdC),
             ("deadline", JVal.jstr "2026-12-31"),
             ("status", JVal.jstr (ksStatus rlusdC 5000000000)),
             ("pct_complete", pct rlusdC (JVal.jnum 5000000000))]),
         ("xrp_etf_aum", JVal.jobj
            [("target", JVal.jnum 5000000000),
             ("current", etfAum),
             ("deadline", JVal.jstr "2026-12-31"),
             ("status", JVal.jstr (ksStatus etfAum 5000000000)),
             ("pct_complete", pct etfAum (JVal.jnum 5000000000))]),
         ("permissioned_dex_adoption", JVal.jobj
            [("target_institutions", JVal.jnum 5),
             ("current", dex),
             ("deadline", JVal.jstr "2026-09-30"),
             ("status", JVal.jstr (ksStatus dex 5))]),
         ("clarity_act", JVal.jobj
            [("target", JVal.jstr "passed_or_advanced"),
             ("current", JVal.jstr "pending"),
             ("deadline", JVal.jstr "2026-12-31"),
             ("status", JVal.jstr (if clarityHit then "HIT" else "PENDING"))])])

/-- The field list behind existing?.manual: non-objects have no readable
properties. -/
def manualFieldsOf (existing : List (String × JVal)) : List (String × JVal) :=
  match getJ existing "manual" with
  | JVal.jobj fields => fields
  | _ => []

/-- scripts/fetch-data.js main, lines 864-872: the manual block is rebuilt
from the previous document with a fixed six-key list; each value is
existing?.manual?.k ?? null (clarity_act_status defaults to Pending). -/
def buildManual (existing : List (String × JVal)) : List (String × JVal) :=
  let m := manualFieldsOf existing
  [("odl_volume_annualized", getJ m "odl_volume_annualized"),
   ("xrp_etf_aum", getJ m "xrp_etf_aum"),
   ("rlusd_circulation", getJ m "rlusd_circulation"),
   ("permissioned_dex_institutions", getJ m "permissioned_dex_institutions"),
   ("clarity_act_status", coalesceJ (getJ m "clarity_act_status") (JVal.jstr "Pending")),
   ("_last_manual_update", getJ m "_last_manual_update")]

/-- Default thesis scorecard used when the previous document has none
(scripts/fetch-data.js lines 875-884). -/
def defaultThesisScores : JVal :=
  JVal.jobj
    [("regulatory", JVal.jobj [("status", JVal.jstr "CONFIRMED"), ("confidence", JVal.jstr "high")]),
     ("institutional_custody", JVal.jobj [("status", JVal.jstr "STRONG"), ("confidence", JVal.jstr "high")]),
     ("etf_adoption", JVal.jobj [("status", JVal.jstr "CONFIRMED"), ("confidence", JVal.jstr "high")]),
     ("xrpl_infrastructure", JVal.jobj [("status", JVal.jstr "ACCELERATING"), ("confidence", JVal.jstr "high")]),
     ("stablecoin_adoption", JVal.jobj [("status", JVal.jstr "GROWING"), ("confidence", JVal.jstr "medium")]),
     ("odl_volume", JVal.jobj [("status", JVal.jstr "NEEDS_DATA"), ("confidence", JVal.jstr "low")]),
     ("japan_adoption", JVal.jobj [("status", JVal.jstr "FAVORABLE"), ("confidence", JVal.jstr "medium")]),
     ("macro_environment", JVal.jobj [("status", JVal.jstr "STRESSED"), ("confidence", JVal.jstr "medium")])]

/-- DEX volume conversion of scripts/fetch-data.js main line 848:
Math.round(dex_volume_24h_usd / price). -/
def dexVolumeXrpCalc (usd price : JN) : JN :=
  jsRound (jsDiv usd price)

/-- ETF percentage-of-supply of scripts/fetch-data.js main lines 853-854:
parseFloat(((total_xrp_locked / (market_cap / price)) * 100).toFixed(3)).
Written exactly as the source computes it; the guard around it checks only
that the three operands are non-null and the price positive. -/
def etfPctSupplyCalc (locked mcap price : JN) : JN :=
  pfToFixed 3 (jsMul (jsDiv locked (jsDiv mcap price)) (JN.num 100))

/-- Post-fetch enrichment of the xrpl_metrics record (main lines 846-849). -/
def enrichXrplMetrics (xm xrp : List (String × JVal)) : List (String × JVal) :=
  match getJ xm "dex_volume_24h_usd", getJ xrp "price" with
  | JVal.jnum u, JVal.jnum p =>
      if 0 < p then
        alistUpsert xm "dex_volume_24h_xrp"
          (jnOfJN (dexVolumeXrpCalc (JN.num u) (JN.num p)))
      else xm
  | _, _ => xm

/-- Post-fetch enrichment of the etf record (main lines 851-857): pct_supply
and circ_supply under the non-null / positive-price guard, then num_funds
always. -/
def enrichEtf (etf xrp : List (String × JVal)) : List (String × JVal) :=
  let etf1 :=
    match getJ etf "total_xrp_locked", getJ xrp "market_cap", getJ xrp "price" with
    | JVal.jnum l, JVal.jnum m, JVal.jnum p =>
        if 0 < p then
          alistUpsert
            (alistUpsert etf "pct_supply"
              (jnOfJN (etfPctSupplyCalc (JN.num l) (JN.num m) (JN.num p))))
            "circ_supply" (jnOfJN (jsRound (jsDiv (JN.num m) (JN.num p))))
        else etf
    | _, _, _ => etf
  let numFunds : ℚ :=
    match getJ etf1 "funds" with
    | JVal.jarr l => (l.length : ℚ)
    | _ => 0
  alistUpsert etf1 "num_funds" (JVal.jnum numFunds)

/-- Health ledger serialization for the output document (one status object
per source; timestamps and error strings are not modelled). -/
def healthToJVal (h : List (String × String)) : JVal :=
  JVal.jobj (h.map (fun p => (p.1, JVal.jobj [("status", JVal.jstr p.2)])))

/-- Top-level keys of the document the fetch cycle writes, in source order
(scripts/fetch-data.js lines 886-914). -/
def fetchDataKeys : List String :=
  ["updated", "auto_fetched", "xrp", "rlusd", "etf", "btc_etf", "eth_etf",
   "supply", "xrpl_metrics", "macro", "news", "manual", "kill_switches",
   "thesis_scores", "health_check", "bear_case", "probability",
   "last_analysis"]

/-- Assembly of the output document written by scripts/fetch-data.js main
(lines 846-916): enrichment of the etf and xrpl_metrics records, rebuild of
the manual block, carry of the editorially-owned fields, and the fixed
top-level key list.  The adapter records arrive as the objects the fetchers
returned; the previous document is arbitrary.  Building kill_switches can
throw (a non-string truthy clarity_act_status), in which case main aborts
with exit 1 and nothing is written: the error propagates. -/
def assembledDoc (ts : String) (existing : List (String × JVal))
    (xrp rlusd etf btc eth supply xm : List (String × JVal))
    (news usdJpy jpn10y us10y brent fearGreed : JVal)
    (health : List (String × String)) (killSwitches : JVal) :
    List (String × JVal) :=
  [("updated", JVal.jstr ts),
   ("auto_fetched", JVal.jbool true),
   ("xrp", JVal.jobj xrp),
   ("rlusd", JVal.jobj rlusd),
   ("etf", JVal.jobj (enrichEtf etf xrp)),
   ("btc_etf", JVal.jobj btc),
   ("eth_etf", JVal.jobj eth),
   ("supply", JVal.jobj supply),
   ("xrpl_metrics", JVal.jobj (enrichXrplMetrics xm xrp)),
   ("macro", JVal.jobj
      [("usd_jpy", usdJpy), ("jpn_10y", jpn10y), ("us_10y_yield", us10y),
       ("brent_crude", brent), ("fear_greed", fearGreed)]),
   ("news", news),
   ("manual", JVal.jobj (buildManual existing)),
   ("kill_switches", killSwitches),
   ("thesis_scores", coalesceJ (getJ existing "thesis_scores") defaultThesisScores),
   ("health_check", healthToJVal health),
   ("bear_case", getJ existing "bear_case"),
   ("probability", getJ existing "probability"),
   ("last_analysis", getJ existing "last_analysis")]

def mainAssemble (ts : String) (existing : List (String × JVal))
    (xrp rlusd etf btc eth supply xm : List (String × JVal))
    (news usdJpy jpn10y us10y brent fearGreed : JVal)
    (health : List (String × String)) : Except String (List (String × JVal)) :=
  match buildKillSwitches (buildManual existing) rlusd (enrichEtf etf xrp) with
  | Except.error e => Except.error e
  | Except.ok killSwitches =>
      Except.ok (assembledDoc ts existing xrp rlusd etf btc eth supply xm
        news usdJpy jpn10y us10y brent fearGreed health killSwitches)

/-- Names of the sources whose health entry is fail
(scripts/fetch-data.js lines 920-922). -/
def failedSources (h : List (String × String)) : List String :=
  (h.filter (fun p => p.2 == "fail")).map Prod.fst

/-- Text of the escalation alert (main line 924). -/
def escalationText (n : Nat) (names : List String) (ts : String) : String :=
  "⚠️ <b>OVERWATCH: " ++ toString n ++ " data sources failed</b>\n\nFailed: "
    ++ String.intercalate ", " names ++ "\nCycle: " ++ ts

/-- Escalation decision of scripts/fetch-data.js main lines 919-926: after
the document is written, one Telegram alert is sent when three or more
sources failed, none otherwise. -/
def escalationMsgs (h : List (String × String)) (ts : String) : List String :=
  let failed := failedSources h
  if 3 ≤ failed.length then [escalationText failed.length failed ts] else []

/-- One fetch cycle tail: when assembly succeeds, the document is written
and the escalation decision runs afterwards; when assembly throws, main's
catch exits with code 1 before the write and before the alert check, so
nothing is persisted and no notification is sent. -/
def mainCycle (ts : String) (existing : List (String × JVal))
    (xrp rlusd etf btc eth supply xm : List (String × JVal))
    (news usdJpy jpn10y us10y brent fearGreed : JVal)
    (health : List (String × String)) :
    Except String (List (String × JVal) × List String) :=
  match mainAssemble ts existing xrp rlusd etf btc eth supply xm news usdJpy
      jpn10y us10y brent fearGreed health with
  | Except.error e => Except.error e
  | Except.ok doc => Except.ok (doc, escalationMsgs health ts)

/-- Completion condition of the merge over the previous document: the
rebuilt clarity-act status reaches toLowerCase as a string exactly when the
previous manual.clarity_act_status is absent, null, or itself a string (the
rebuild defaults absent/null to the string Pending). -/
def clarityWellFormed (existing : List (String × JVal)) : Bool :=
  match getJ (manualFieldsOf existing) "clarity_act_status" with
  | JVal.jnull => true
  | JVal.jstr _ => true
  | _ => false

end FetchData

/-- Apostrophe character, written by code point to keep source scanning
simple. -/
def aposC : Char := Char.ofNat 39

/-- Space character by code point. -/
def spaceC : Char := Char.ofNat 32

/-- Single-quote string used when rendering JavaScript object literals. -/
def sq : String := String.singleton aposC

/-- JavaScript whitespace test restricted to ASCII (space, tab, LF, CR). -/
def isJsWs (c : Char) : Bool :=
  c.toNat = 32 || c.toNat = 9 || c.toNat = 10 || c.toNat = 13

/-- First index at which the needle occurs in the haystack. -/
def findSubstrIdxAux : List Char → List Char → Nat → Option Nat
  | [], needle, i => if needle.isEmpty then some i else none
  | c :: t, needle, i =>
      if needle.isPrefixOf (c :: t) then some i
      else findSubstrIdxAux t needle (i + 1)

/-- String.prototype.indexOf returning an option instead of -1. -/
def findSubstrIdx (hay needle : String) : Option Nat :=
  findSubstrIdxAux hay.data needle.data 0

/-- Character-counted prefix of a string (String.prototype.substring(0, n)). -/
def strTake (s : String) (n : Nat) : String :=
  String.mk (s.data.take n)

/-- Character-counted suffix of a string (String.prototype.substring(n)). -/
def strDrop (s : String) (n : Nat) : String :=
  String.mk (s.data.drop n)

/-- String.prototype.trim restricted to the ASCII whitespace the embedded
documents contain. -/
def trimJs (s : String) : String :=
  String.mk (((s.data.dropWhile isJsWs).reverse.dropWhile isJsWs).reverse)

/-- ASCII upper-casing (String.prototype.toUpperCase on the characters the
embedded data uses). -/
def toUpperStr (s : String) : String :=
  String.mk (s.data.map Char.toUpper)

namespace FetchData

/-- Word character of the regex escapes in fetchNews, on lower-cased text. -/
def newsWordChar (c : Char) : Bool :=
  ('a' ≤ c && c ≤ 'z') || ('0' ≤ c && c ≤ '9') || c == '_'

/-- Word-bounded occurrence scan: the needle occurs with no word character
immediately before or after it.  The flag carries whether the previous
scanned character was a word character. -/
def hasWordAux : Bool → List Char → List Char → Bool
  | _, [], _ => false
  | prevW, c :: t, needle =>
      (!prevW && needle.isPrefixOf (c :: t) &&
        (match (c :: t).drop needle.length with
         | [] => true
         | d :: _ => !newsWordChar d))
      || hasWordAux (newsWordChar c) t needle

/-- Word-bounded containment on lower-cased character lists. -/
def containsWord (hay needle : List Char) : Bool :=
  hasWordAux false hay needle

/-- Separator classes of the fetchNews relevance pattern. -/
inductive SepKind where
  | wsPlus : SepKind
  | dashOrSpace : SepKind

/-- Consume one separator occurrence: one-or-more whitespace characters,
or exactly one dash-or-space. -/
def consumeSep : SepKind → List Char → Option (List Char)
  | SepKind.wsPlus, cs =>
      let w := cs.takeWhile isJsWs
      if w.isEmpty then none else some (cs.drop w.length)
  | SepKind.dashOrSpace, c :: rest =>
      if c == '-' || c.toNat = 32 then some rest else none
  | SepKind.dashOrSpace, [] => none

/-- Match the tail of a separated word chain at the current position. -/
def chainGo : List Char → List (SepKind × List Char) → Bool
  | _, [] => true
  | cs, (k, lit) :: more =>
      match consumeSep k cs with
      | none => false
      | some cs1 =>
          if lit.isPrefixOf cs1 then chainGo (cs1.drop lit.length) more
          else false

/-- Scan for an occurrence of a separated word chain anywhere in the
text. -/
def containsChainAux : List Char → List Char → List (SepKind × List Char) → Bool
  | [], _, _ => false
  | c :: t, first, chain =>
      (first.isPrefixOf (c :: t) && chainGo ((c :: t).drop first.length) chain)
        || containsChainAux t first chain

/-- The XRP_RE relevance test of fetchNews (fetch-data.js line 743),
case-insensitive: a word-bounded occurrence of one of the asset names, or
one of the whitespace-separated phrases (cross-border allows a dash or a
single space between its first two words). -/
def xrpRelevant (s : String) : Bool :=
  let cs := (toLowerStr s).data
  ["xrp", "ripple", "xrpl", "rlusd", "odl", "ondemandliquidity", "ripplenet"].any
      (fun w => containsWord cs w.data)
    || containsChainAux cs "stablecoin".data [(SepKind.wsPlus, "settlement".data)]
    || containsChainAux cs "tokenized".data [(SepKind.wsPlus, "treasury".data)]
    || containsChainAux cs "cross".data
        [(SepKind.dashOrSpace, "border".data), (SepKind.wsPlus, "payment".data),
         (SepKind.wsPlus, "blockchain".data)]
    || containsChainAux cs "sbi".data
        [(SepKind.wsPlus, "holdings".data), (SepKind.wsPlus, "blockchain".data)]

/-- Numeric value of an ASCII digit. -/
def digitVal (c : Char) : Nat := c.toNat - 48

/-- Read exactly two digits. -/
def read2 : List Char → Option (Nat × List Char)
  | a :: b :: r =>
      if isDigitC a && isDigitC b then some (digitVal a * 10 + digitVal b, r)
      else none
  | _ => none

/-- Read exactly four digits. -/
def read4 : List Char → Option (Nat × List Char)
  | a :: b :: c :: d :: r =>
      if isDigitC a && isDigitC b && isDigitC c && isDigitC d then
        some (((digitVal a * 10 + digitVal b) * 10 + digitVal c) * 10 + digitVal d, r)
      else none
  | _ => none

/-- Expect one specific character. -/
def expectC (c : Char) : List Char → Option (List Char)
  | d :: r => if d == c then some r else none
  | [] => none

/-- Days since the Unix epoch of a civil date (standard days-from-civil
computation; the feeds only carry post-1970 dates). -/
def daysFromCivil (y m d : Int) : Int :=
  let y2 := if m ≤ 2 then y - 1 else y
  let era := (if 0 ≤ y2 then y2 else y2 - 399) / 400
  let yoe := y2 - era * 400
  let mp := (m + 9) % 12
  let doy := (153 * mp + 2) / 5 + d - 1
  let doe := yoe * 365 + yoe / 4 - yoe / 100 + doy
  era * 146097 + doe - 719468

/-- Epoch milliseconds of a timestamp. -/
def msOfCivil (y mo d h mi s ms : Nat) : Int :=
  (daysFromCivil (y : Int) (mo : Int) (d : Int) * 86400
      + (h : Int) * 3600 + (mi : Int) * 60 + (s : Int)) * 1000 + (ms : Int)

/-- Date.parse restricted to the ISO-style timestamps the news feeds emit
(YYYY-MM-DD, optionally followed by T-or-space HH:MM:SS, an optional
fraction, and an optional Z; treated as UTC).  Anything else is an invalid
date, NaN.  No theorem depends on the parsed value. -/
def parseIsoMs (s : String) : JN :=
  let p : Option Int := do
    let (y, r1) ← read4 s.data
    let r2 ← expectC '-' r1
    let (mo, r3) ← read2 r2
    let r4 ← expectC '-' r3
    let (d, r5) ← read2 r4
    if !(1 ≤ mo && mo ≤ 12 && 1 ≤ d && d ≤ 31) then none
    else
      match r5 with
      | [] => some (msOfCivil y mo d 0 0 0 0)
      | sep :: r6 =>
          if sep == 'T' || sep.toNat = 32 then do
            let (h, r7) ← read2 r6
            let r8 ← expectC ':' r7
            let (mi, r9) ← read2 r8
            let r10 ← expectC ':' r9
            let (sec, r11) ← read2 r10
            if !(h ≤ 23 && mi ≤ 59 && sec ≤ 59) then none
            else
              let (msFrac, r12) :=
                match r11 with
                | '.' :: rest =>
                    let ds := rest.takeWhile isDigitC
                    (natOfDigits (ds.take 3), rest.drop ds.length)
                | rest => (0, rest)
              match r12 with
              | [] => some (msOfCivil y mo d h mi sec msFrac)
              | ['Z'] => some (msOfCivil y mo d h mi sec msFrac)
              | _ => none
          else none
  match p with
  | some v => JN.num (v : ℚ)
  | none => JN.nan

/-- Publish-time extraction, new Date(p.published_at).getTime(): a string
parses as an ISO timestamp, a number is already epoch milliseconds; an
absent field gives an invalid date (NaN).  (An explicit JSON null would give
epoch 0 in JavaScript; both fail the 24-hour recency cutoff of any real
clock, and the feeds never send null here.) -/
def dateMs : JVal → JN
  | JVal.jstr s => parseIsoMs s
  | JVal.jnum q => JN.num q
  | _ => JN.nan

/-- Strict greater-than against a rational cutoff (NaN compares false). -/
def jsGtQ (a : JN) (b : ℚ) : Bool :=
  match a with
  | JN.num q => b < q
  | JN.inf => true
  | _ => false

/-- String coercion as the + concatenation in the relevance test does it;
only strings occur in the title and description slots. -/
def jsCoerceStr : JVal → String
  | JVal.jstr s => s
  | JVal.jnum q => toString q
  | JVal.jbool b => if b then "true" else "false"
  | JVal.jnull => "null"
  | _ => ""

/-- The all-empty news record of the graceful-degradation return
(fetch-data.js line 768): fresh timestamp, source none, no headlines. -/
def newsDefault (ts : String) : JVal :=
  JVal.jobj
    [("last_fetched", JVal.jstr ts), ("source", JVal.jstr "none"),
     ("headlines", JVal.jarr [])]

/-- CryptoPanic success record (fetch-data.js lines 713-726): headlines with
a truthy title published within the last 24 hours, at most 15, mapped to the
fixed shape. -/
def cpRecord (ts : String) (nowMs : Int) (results : List JVal) : JVal :=
  let cutoff : ℚ := ((nowMs - 86400000 : Int) : ℚ)
  let headlines :=
    ((results.filter (fun p =>
        !isFalsyJ (getJv p "title")
          && jsGtQ (dateMs (getJv p "published_at")) cutoff)).take 15).map
      (fun p => JVal.jobj
        [("title", getJv p "title"),
         ("source", coalesceJ (getJv (getJv p "source") "title") (JVal.jstr "CryptoPanic")),
         ("url", coalesceJ (getJv p "url") (JVal.jstr "")),
         ("published", getJv p "published_at")])
  JVal.jobj
    [("last_fetched", JVal.jstr ts), ("source", JVal.jstr "cryptopanic"),
     ("headlines", JVal.jarr headlines)]

/-- NewsData success record (fetch-data.js lines 742-756): results filtered
by the relevance pattern over title and description, falling back to all
results when nothing is relevant; at most 15, mapped to the fixed shape. -/
def ndRecord (ts : String) (results : List JVal) : JVal :=
  let relevant := results.filter (fun p =>
    xrpRelevant (jsCoerceStr (coalesceJ (getJv p "title") (JVal.jstr "")) ++ " "
      ++ jsCoerceStr (coalesceJ (getJv p "description") (JVal.jstr ""))))
  let pool := if 1 ≤ relevant.length then relevant else results
  let headlines := (pool.take 15).map (fun p => JVal.jobj
    [("title", coalesceJ (getJv p "title") (JVal.jstr "")),
     ("source", coalesceJ (getJv p "source_id") (JVal.jstr "NewsData")),
     ("url", coalesceJ (getJv p "link") (JVal.jstr "")),
     ("published", getJv p "pubDate")])
  JVal.jobj
    [("last_fetched", JVal.jstr ts), ("source", JVal.jstr "newsdata"),
     ("headlines", JVal.jarr headlines)]

/-- scripts/fetch-data.js fetchNews (lines 702-768).  cpKey / ndKey model
whether CRYPTOPANIC_API_KEY / NEWSDATA_API_KEY are set; the upstream
outcomes arrive as Except values at the await boundaries.  A missing or
failing CryptoPanic (error, non-array, or empty results) falls through to
NewsData; a NewsData upstream failure records health fail; with no NewsData
key the adapter records skip — not fail — and both degradation paths return
fallback?.news ?? the empty default. -/
def fetchNews (cpKey : Bool) (cpUpstream : Except String JVal)
    (ndKey : Bool) (ndUpstream : Except String JVal)
    (existing : List (String × JVal)) (ts : String) (nowMs : Int) :
    JVal × String :=
  let fallbackNews := coalesceJ (getJ existing "news") (newsDefault ts)
  let cpResult : Option JVal :=
    if cpKey then
      match cpUpstream with
      | Except.error _ => none
      | Except.ok data =>
          match getJv data "results" with
          | JVal.jarr results =>
              if results.isEmpty then none else some (cpRecord ts nowMs results)
          | _ => none
    else none
  match cpResult with
  | some record => (record, "ok")
  | none =>
      if ndKey then
        match ndUpstream with
        | Except.error _ => (fallbackNews, "fail")
        | Except.ok data =>
            match getJv data "results" with
            | JVal.jarr results =>
                if results.isEmpty then (fallbackNews, "fail")
                else (ndRecord ts results, "ok")
            | _ => (fallbackNews, "fail")
      else (fallbackNews, "skip")

end FetchData

namespace ApplyAnalysis

/-- Array.prototype.join with a separator. -/
def joinWith : String → List String → String
  | _, [] => ""
  | _, [x] => x
  | sep, x :: y :: rest => x ++ sep ++ joinWith sep (y :: rest)

/-- SCORE_KEY_MAP of scripts/apply-analysis.js (lines 121-134). -/
def scoreKeyMap : String → Option String
  | "Regulatory Clarity" => some "regulatory"
  | "Regulatory" => some "regulatory"
  | "Institutional Custody" => some "institutional_custody"
  | "ETF Adoption" => some "etf_adoption"
  | "XRPL Infrastructure" => some "xrpl_infrastructure"
  | "Stablecoin (RLUSD)" => some "stablecoin_adoption"
  | "Stablecoin Adoption" => some "stablecoin_adoption"
  | "RLUSD" => some "stablecoin_adoption"
  | "ODL Volume" => some "odl_volume"
  | "Japan Adoption" => some "japan_adoption"
  | "Macro Environment" => some "macro_environment"
  | "Macro" => some "macro_environment"
  | _ => none

/-- KS_KEY_MAP of scripts/apply-analysis.js (lines 137-148). -/
def ksKeyMap : String → Option String
  | "ODL Volume" => some "odl_volume"
  | "RLUSD Circulation" => some "rlusd_circulation"
  | "Permissioned DEX" => some "permissioned_dex_adoption"
  | "XRP ETF AUM" => some "xrp_etf_aum"
  | "Japan Adoption" => some "japan_adoption"
  | "Clarity Act" => some "clarity_act"
  | "Announcement-to-Deployment" => some "announcement_to_deployment"
  | "Token Velocity" => some "token_velocity"
  | "Competitive Displacement" => some "competitive_displacement"
  | "ODL Transparency" => some "odl_transparency"
  | _ => none

/-- One scorecard_updates record of analysis-output.json. -/
structure ScoreUpdate where
  category : String
  previous_status : String
  recommended_status : String
deriving Repr, DecidableEq

/-- One kill_switch_updates record; a missing reasoning is None. -/
structure KsUpdate where
  name : String
  previous_status : String
  recommended_status : String
  reasoning : Option String
deriving Repr, DecidableEq

/-- Recommended probability adjustment; an absent or empty reasoning string
is falsy and prevents application. -/
structure ProbAdj where
  bear : JVal
  base : JVal
  mid : JVal
  bull : JVal
  reasoning : String

/-- One events_draft record. -/
structure EventDraft where
  date : String
  category : Option String
  severity : Option String
  title : String
  expanded : Option String

/-- One geopolitical_watchlist row. -/
structure GeoRow where
  region : String
  status_text : String

/-- The opinion document analysis-output.json, with the fields
scripts/apply-analysis.js reads. -/
structure Analysis where
  timestamp : String
  run_type : String
  stress_level : JVal
  stress_score : JVal
  scorecard_updates : List ScoreUpdate
  kill_switch_updates : List KsUpdate
  recommended_probability_adjustment : Option ProbAdj
  events_draft : List EventDraft
  thesis_pulse_assessment : Option String
  stress_interpretation : Option String
  energy_interpretation : Option String
  geopolitical_watchlist : List GeoRow

/-- The slice of dashboard-data.json that scripts/apply-analysis.js
mutates. -/
structure Dashboard where
  thesis_scores : List (String × JVal)
  kill_switches : List (String × JVal)
  probability : JVal
  last_analysis : JVal

/-- Object spread update of apply-analysis.js line 349:
dashboard.thesis_scores[key] = { ...current, status }.  A non-object current
(including the empty-object default) spreads to no fields. -/
def spreadSetStatus (current : JVal) (status : String) : JVal :=
  let fields :=
    match current with
    | JVal.jobj fs => fs
    | _ => []
  JVal.jobj (alistUpsert fields "status" (JVal.jstr status))

/-- Status string rendered into a changelog line (current.status ?? a
question mark); non-string statuses do not occur in the produced
documents. -/
def statusStrOf (current : JVal) : String :=
  match getJv current "status" with
  | JVal.jstr s => s
  | _ => "?"

/-- Scorecard loop of scripts/apply-analysis.js main, lines 335-355.  A delta
is skipped when the document's recommended_status equals the document's own
previous_status, or when the category is unmapped; otherwise the keyed entry
gets its status replaced and the change counter is incremented.  Returns the
updated thesis_scores, the number of changes, and the changelog lines. -/
def applyScorecard : List ScoreUpdate → List (String × JVal) →
    List (String × JVal) × Nat × List String
  | [], ts => (ts, 0, [])
  | u :: rest, ts =>
      if u.recommended_status == u.previous_status then applyScorecard rest ts
      else
        match scoreKeyMap u.category with
        | none => applyScorecard rest ts
        | some key =>
            let current := (alistLookup ts key).getD (JVal.jobj [])
            let ts1 := alistUpsert ts key (spreadSetStatus current u.recommended_status)
            let r := applyScorecard rest ts1
            (r.1, r.2.1 + 1,
              ("SCORECARD " ++ u.category ++ ": " ++ statusStrOf current
                ++ " → " ++ u.recommended_status) :: r.2.2)

/-- Field update on a kill-switch entry object (apply-analysis.js lines
375-378).  The entries the dashboard builds are always objects; property
assignment on a primitive would throw in strict mode and is not modelled
beyond returning the value unchanged. -/
def setKsFields (v : JVal) (status : String) (reasoning : Option String) : JVal :=
  match v with
  | JVal.jobj fs =>
      let fs1 := alistUpsert fs "status" (JVal.jstr status)
      match reasoning with
      | some r =>
          if r == "" then JVal.jobj fs1
          else JVal.jobj (alistUpsert fs1 "_analysis_note" (JVal.jstr r))
      | none => JVal.jobj fs1
  | _ => v

/-- Kill-switch loop of scripts/apply-analysis.js main, lines 358-381.
Skips deltas whose recommended equals the document's previous status,
unmapped names, and keys whose dashboard entry is absent or falsy. -/
def applyKillSwitches : List KsUpdate → List (String × JVal) →
    List (String × JVal) × Nat × List String
  | [], ks => (ks, 0, [])
  | u :: rest, ks =>
      if u.recommended_status == u.previous_status then applyKillSwitches rest ks
      else
        match ksKeyMap u.name with
        | none => applyKillSwitches rest ks
        | some key =>
            let cur := (alistLookup ks key).getD JVal.jnull
            if isFalsyJ cur then applyKillSwitches rest ks
            else
              let ks1 := alistUpsert ks key (setKsFields cur u.recommended_status u.reasoning)
              let r := applyKillSwitches rest ks1
              (r.1, r.2.1 + 1,
                ("KILL_SWITCH " ++ u.name ++ ": " ++ u.previous_status
                  ++ " → " ++ u.recommended_status) :: r.2.2)

/-- Rendered number for changelog text (decimal rendering approximated;
no theorem inspects changelog content). -/
def jvalText : JVal → String
  | JVal.jnum q => toString q
  | JVal.jstr s => s
  | JVal.jnull => "null"
  | _ => ""

/-- Probability step of scripts/apply-analysis.js main, lines 384-397: the
adjustment is applied (and counted) whenever the document carries a
probability block with a truthy reasoning string. -/
def applyProb (prob : Option ProbAdj) (timestamp : String) : Option JVal :=
  match prob with
  | some p =>
      if p.reasoning == "" then none
      else
        some (JVal.jobj
          [("bear", p.bear), ("base", p.base), ("mid", p.mid), ("bull", p.bull),
           ("last_updated", JVal.jstr timestamp),
           ("last_reasoning", JVal.jstr p.reasoning)])
  | none => none

/-- Lower-case-alphanumeric test used by the title-key normalization. -/
def isLowerAlnum (c : Char) : Bool :=
  ('a' ≤ c && c ≤ 'z') || ('0' ≤ c && c ≤ '9')

/-- Collapse of every maximal run of non-alphanumeric characters to a single
space: the replace(/[^a-z0-9]+/g, space) step of titleKey.  The flag records
whether the scan is inside such a run. -/
def collapseAux : Bool → List Char → List Char
  | _, [] => []
  | inRun, c :: rest =>
      if isLowerAlnum c then c :: collapseAux false rest
      else if inRun then collapseAux true rest
      else spaceC :: collapseAux true rest

/-- scripts/apply-analysis.js titleKey (lines 153-155): lower-case, collapse
non-alphanumeric runs to one space, trim, and keep the first 40
characters. -/
def titleKey (title : String) : String :=
  let lowered := title.data.map Char.toLower
  let collapsed := collapseAux false lowered
  let trimmed := ((collapsed.dropWhile (fun c => c == spaceC)).reverse.dropWhile
      (fun c => c == spaceC)).reverse
  String.mk (trimmed.take 40)

/-- mapSeverity of scripts/apply-analysis.js (lines 180-186): threat label
and emoji. -/
def mapSeverity (severity : Option String) : String × String :=
  match toUpperStr (severity.getD "") with
  | "CRITICAL" => ("CRITICAL", "🔴")
  | "ELEVATED" => ("ELEVATED", "🟡")
  | _ => ("MONITORING", "🟢")

/-- mapCategory of scripts/apply-analysis.js (lines 189-197). -/
def mapCategory (category : String) : String :=
  match toUpperStr category with
  | "INSTITUTIONAL" => "inst"
  | "REGULATORY" => "reg"
  | "GEOPOLITICAL" => "geo"
  | "FINANCIAL" => "fin"
  | _ => "inst"

/-- Month-name table for the date labels the analyst emits (Mon DD). -/
def monthNum : String → Option Nat
  | "Jan" => some 1
  | "Feb" => some 2
  | "Mar" => some 3
  | "Apr" => some 4
  | "May" => some 5
  | "Jun" => some 6
  | "Jul" => some 7
  | "Aug" => some 8
  | "Sep" => some 9
  | "Oct" => some 10
  | "Nov" => some 11
  | "Dec" => some 12
  | _ => none

/-- Two-digit zero padding. -/
def pad2 (n : Nat) : String :=
  if n < 10 then "0" ++ toString n else toString n

/-- parseDateLabel of scripts/apply-analysis.js (lines 203-218) specialised
to the Mon DD labels the opinion document schema prescribes; any other label
falls back to the supplied today values, as the source falls back to the
current date.  (Full JavaScript Date parsing is not reproduced; no theorem
depends on the rendered date.) -/
def parseDateLabel (label : String) (year : Nat) (todayIso todayLabel : String) :
    String × String :=
  match label.splitOn " " with
  | [mon, day] =>
      match monthNum mon with
      | some m =>
          let ds := day.data
          if !ds.isEmpty && ds.all isDigitC then
            (toString year ++ "-" ++ pad2 m ++ "-" ++ pad2 (natOfDigits ds),
             toUpperStr label)
          else (todayIso, todayLabel)
      | none => (todayIso, todayLabel)
  | _ => (todayIso, todayLabel)

/-- Escape used inside single-quoted JavaScript literals (backslash and
apostrophe, apply-analysis.js line 226). -/
def escEvt (s : String) : String :=
  String.mk (s.data.foldr
    (fun c acc =>
      if c.toNat = 92 then Char.ofNat 92 :: Char.ofNat 92 :: acc
      else if c.toNat = 39 then Char.ofNat 92 :: Char.ofNat 39 :: acc
      else c :: acc) [])

/-- Quoted literal helper. -/
def quoteJs (s : String) : String := sq ++ s ++ sq

/-- buildEventEntry of scripts/apply-analysis.js (lines 221-238): the object
literal text inserted into the EVENTS_DATA array. -/
def buildEventEntry (evt : EventDraft) (year : Nat) (todayIso todayLabel : String) :
    String :=
  let dl := parseDateLabel evt.date year todayIso todayLabel
  let category := toUpperStr (evt.category.getD "INSTITUTIONAL")
  let catClass := mapCategory category
  let te := mapSeverity evt.severity
  "  \x7b\n    date: " ++ quoteJs dl.1
    ++ ",\n    dateLabel: " ++ quoteJs dl.2
    ++ ",\n    title: " ++ quoteJs (escEvt evt.title)
    ++ ",\n    category: " ++ quoteJs category
    ++ ",\n    catClass: " ++ quoteJs catClass
    ++ ",\n    threat: " ++ quoteJs te.1
    ++ ",\n    threatEmoji: " ++ quoteJs te.2
    ++ ",\n    desc: " ++ quoteJs (escEvt (evt.expanded.getD ""))
    ++ "\n  \x7d"

/-- Match at the current position of the title-extraction pattern
title:\s*([^']+) between single quotes; returns the captured title and the
remaining characters after the closing quote. -/
def matchTitleAt (cs : List Char) : Option (String × List Char) :=
  if ("title:".data).isPrefixOf cs then
    let afterWs := (cs.drop 6).dropWhile isJsWs
    match afterWs with
    | q :: rest =>
        if q == aposC then
          let content := rest.takeWhile (fun c => c != aposC)
          let rest2 := rest.drop content.length
          match content, rest2 with
          | [], _ => none
          | _, q2 :: rest3 => if q2 == aposC then some (String.mk content, rest3) else none
          | _, [] => none
        else none
    | [] => none
  else none

/-- Global scan of the title-extraction regex (apply-analysis.js lines
262-267): each match resumes after its closing quote; a failed position
advances one character.  Fuel bounds the scan by the input length. -/
def extractTitlesAux : Nat → List Char → List String
  | 0, _ => []
  | _, [] => []
  | fuel + 1, c :: t =>
      match matchTitleAt (c :: t) with
      | some r => r.1 :: extractTitlesAux fuel r.2
      | none => extractTitlesAux fuel t

/-- Titles of the entries already present in index.html. -/
def extractTitles (html : String) : List String :=
  extractTitlesAux html.data.length html.data

/-- Dedup loop of insertEventsIntoHTML (apply-analysis.js lines 272-285):
events with falsy titles are dropped; an event whose normalized key is in
the in-file title set or the history set is skipped; otherwise it is kept
and its key recorded in both sets.  Returns the kept events, the updated
history, and the inserted count. -/
def dedupLoop : List EventDraft → List String → List String →
    List EventDraft × List String × Nat
  | [], _, hist => ([], hist, 0)
  | e :: rest, ex, hist =>
      if e.title == "" then dedupLoop rest ex hist
      else
        let k := titleKey e.title
        if ex.contains k || hist.contains k then dedupLoop rest ex hist
        else
          let r := dedupLoop rest (ex ++ [k]) (hist ++ [k])
          (e :: r.1, r.2.1, r.2.2 + 1)

/-- Result of the event-insertion step. -/
structure InsertResult where
  html : String
  history : List String
  inserted : Nat

/-- The EVENTS_DATA marker searched in index.html. -/
def markerStr : String := "const EVENTS_DATA = ["

/-- insertEventsIntoHTML of scripts/apply-analysis.js (lines 245-303): when
the marker is found, deduplicate the drafts against the in-file titles and
the history file, render the kept entries, and splice them one character
after the opening bracket; the history file is saved only when something was
inserted. -/
def insertEventsIntoHTML (html : String) (history : List String)
    (eventsDraft : List EventDraft) (year : Nat) (todayIso todayLabel : String) :
    InsertResult :=
  match findSubstrIdx html markerStr with
  | none => ⟨html, history, 0⟩
  | some idx =>
      let existingTitles := (extractTitles html).map titleKey
      let r := dedupLoop eventsDraft existingTitles history
      if r.2.2 = 0 then ⟨html, history, 0⟩
      else
        let block := joinWith ",\n"
            (r.1.map (fun e => buildEventEntry e year todayIso todayLabel)) ++ ",\n"
        let p := idx + markerStr.length + 1
        ⟨strTake html p ++ "\n" ++ block ++ strDrop html p, r.2.1, r.2.2⟩

/-- Attribute-region match of the paragraph-replacement regex at the current
position: an opening p tag with one whitespace character, attributes free of
a closing angle bracket containing the id attribute, the non-tag content, and
a literal closing p tag.  Returns open tag, content, and the rest after the
closing tag. -/
def matchParaAt (cs : List Char) (idAttr : List Char) :
    Option (List Char × List Char × List Char) :=
  match cs with
  | '<' :: 'p' :: w :: rest =>
      if isJsWs w then
        let attrs := rest.takeWhile (fun c => c != '>')
        let rest2 := rest.drop attrs.length
        match rest2 with
        | '>' :: rest3 =>
            if containsSubAux attrs idAttr then
              let content := rest3.takeWhile (fun c => c != '<')
              let rest4 := rest3.drop content.length
              if ("</p>".data).isPrefixOf rest4 then
                some ('<' :: 'p' :: w :: attrs ++ ['>'], content, rest4.drop 4)
              else none
            else none
        | _ => none
      else none
  | _ => none

/-- Leftmost match of the paragraph pattern; pre accumulates the scanned
prefix in reverse. -/
def replaceParaAux : Nat → List Char → List Char → List Char →
    Option (List Char × List Char × List Char × List Char)
  | 0, _, _, _ => none
  | _, _, [], _ => none
  | fuel + 1, pre, c :: t, idAttr =>
      match matchParaAt (c :: t) idAttr with
      | some r => some (pre.reverse, r.1, r.2.1, r.2.2)
      | none => replaceParaAux fuel (c :: pre) t idAttr

/-- scripts/apply-analysis.js replaceParaById (lines 72-87): replace the
content of the paragraph carrying the element id, unless the new text is
falsy, the element is missing, or the existing text equals the incoming text
exactly or on the first 60 characters. -/
def replaceParaById (html : String) (elementId : String)
    (newText : Option String) : String × Bool :=
  match newText with
  | none => (html, false)
  | some nt =>
      if nt == "" then (html, false)
      else
        let idAttr := ("id=\"" ++ elementId ++ "\"").data
        match replaceParaAux html.data.length [] html.data idAttr with
        | none => (html, false)
        | some m =>
            let existing := trimJs (String.mk m.2.2.1)
            let incoming := trimJs nt
            if existing == incoming
                || strTake existing 60 == strTake incoming 60 then (html, false)
            else
              (String.mk m.1 ++ String.mk m.2.1 ++ incoming ++ "</p>"
                ++ String.mk m.2.2.2, true)

/-- HTML escape of replaceGeoWatchlist (apply-analysis.js line 112). -/
def escHtml (s : String) : String :=
  String.mk (s.data.foldr
    (fun c acc =>
      if c == '&' then "&amp;".data ++ acc
      else if c == '<' then "&lt;".data ++ acc
      else if c == '>' then "&gt;".data ++ acc
      else c :: acc) [])

/-- One rendered watchlist row (apply-analysis.js line 113). -/
def geoRowText (r : GeoRow) : String :=
  "        <div class=\"data-row\"><span class=\"data-label\">"
    ++ escHtml r.region ++ "</span><span class=\"signal amber\">"
    ++ escHtml r.status_text ++ "</span></div>"

/-- Opening tag searched by replaceGeoWatchlist. -/
def geoStartTag : String := "<div id=\"geoWatchlist\">"

/-- Depth scan of replaceGeoWatchlist (apply-analysis.js lines 104-109):
advance one character at a time, increasing depth at an opening div,
decreasing at a closing one, and stop at the closing div matching depth
one.  Returns the offset of that closing tag (or the end of input). -/
def geoFindEnd : Nat → List Char → Nat → Nat → Nat
  | 0, _, _, i => i
  | _, [], _, i => i
  | fuel + 1, c :: t, depth, i =>
      if ("<div".data).isPrefixOf (c :: t) then geoFindEnd fuel t (depth + 1) (i + 1)
      else if ("</div>".data).isPrefixOf (c :: t) then
        (if depth = 1 then i else geoFindEnd fuel t (depth - 1) (i + 1))
      else geoFindEnd fuel t depth (i + 1)

/-- scripts/apply-analysis.js replaceGeoWatchlist (lines 93-118). -/
def replaceGeoWatchlist (html : String) (rows : List GeoRow) : String × Bool :=
  if rows.isEmpty then (html, false)
  else
    match findSubstrIdx html geoStartTag with
    | none => (html, false)
    | some idx =>
        let contentStart := idx + geoStartTag.length
        let tailCs := html.data.drop contentStart
        let endOff := geoFindEnd tailCs.length tailCs 1 0
        let existing := String.mk (tailCs.take endOff)
        let newContent := "\n" ++ joinWith "\n" (rows.map geoRowText)
            ++ "\n      "
        if trimJs existing == trimJs newContent then (html, false)
        else
          (strTake html contentStart ++ newContent
            ++ strDrop html (contentStart + endOff), true)

/-- Result of one invocation of the approval/patch engine. -/
structure ApplyResult where
  dashboard : Dashboard
  html : String
  history : List String
  changes : Nat
  changelog : List String

/-- scripts/apply-analysis.js main, steps 2-8 (lines 334-478): scorecard and
kill-switch deltas, probability adjustment, the last_analysis stamp (which
records the count before events and html updates, as the source does),
timeline-event insertion, and the four qualitative html updates.  File reads
and writes are factored out: the previous dashboard slice, the html document,
and the history list are inputs; the clock arrives as now / year / today
values. -/
def applyMain (now : String) (year : Nat) (todayIso todayLabel : String)
    (d : Dashboard) (a : Analysis) (html : String) (history : List String) :
    ApplyResult :=
  let rs := applyScorecard a.scorecard_updates d.thesis_scores
  let rk := applyKillSwitches a.kill_switch_updates d.kill_switches
  let probNew := applyProb a.recommended_probability_adjustment a.timestamp
  let probv := probNew.getD d.probability
  let c3 := if probNew.isSome then 1 else 0
  let log3 : List String :=
    match a.recommended_probability_adjustment, probNew with
    | some p, some _ =>
        ["PROBABILITY: Bear " ++ jvalText p.bear ++ "% | Base " ++ jvalText p.base
          ++ "% | Mid " ++ jvalText p.mid ++ "% | Bull " ++ jvalText p.bull ++ "%"]
    | _, _ => []
  let changes5 := rs.2.1 + rk.2.1 + c3
  let stamped : Dashboard :=
    { thesis_scores := rs.1
      kill_switches := rk.1
      probability := probv
      last_analysis := JVal.jobj
        [("timestamp", JVal.jstr a.timestamp),
         ("run_type", JVal.jstr a.run_type),
         ("stress_level", a.stress_level),
         ("stress_score", a.stress_score),
         ("applied_at", JVal.jstr now),
         ("changes_applied", JVal.jnum changes5)] }
  let evr :=
    if 0 < a.events_draft.length then
      insertEventsIntoHTML html history a.events_draft year todayIso todayLabel
    else ⟨html, history, 0⟩
  let log7 : List String :=
    if 0 < evr.inserted then
      ["EVENTS: " ++ toString evr.inserted ++ " new event(s) inserted into timeline"]
    else []
  let r1 := replaceParaById evr.html "thesisPulseText" a.thesis_pulse_assessment
  let r2 := replaceParaById r1.1 "stressInterpretText" a.stress_interpretation
  let r3 := replaceParaById r2.1 "energyInterpretText" a.energy_interpretation
  let r4 := replaceGeoWatchlist r3.1 a.geopolitical_watchlist
  let htmlChanges := (if r1.2 then 1 else 0) + (if r2.2 then 1 else 0)
    + (if r3.2 then 1 else 0) + (if r4.2 then 1 else 0)
  let log8 : List String :=
    (if r1.2 then ["HTML: thesis_pulse_assessment updated"] else [])
      ++ (if r2.2 then ["HTML: stress_interpretation updated"] else [])
      ++ (if r3.2 then ["HTML: energy_interpretation updated"] else [])
      ++ (if r4.2 then ["HTML: geopolitical_watchlist updated"] else [])
  { dashboard := stamped
    html := r4.1
    history := evr.history
    changes := changes5 + evr.inserted + htmlChanges
    changelog := rs.2.2 ++ rk.2.2 ++ log3 ++ log7 ++ log8 }

end ApplyAnalysis

namespace Xrpl

/-- BigInt construction from the decimal digit strings the ledger header
carries in total_coins (the only shape fed to it by fetchXRPLMetrics);
any other string throws in JavaScript, caught by the adapter's failure
path, hence None. -/
def parseBigInt (s : String) : Option Int :=
  if s ≠ "" && s.data.all isDigitC then some (natOfDigits s.data : Int)
  else none

/-- The fee-burn subtraction of the XRPL-native ingestion variant
(fetchXRPLMetrics, BigInt(oldestCoins) - BigInt(newestCoins)): performed on
arbitrary-precision integers, so it is exact for quantities beyond the safe
double range. -/
def totalCoinsBurnDrops (oldest newest : String) : Option Int :=
  match parseBigInt oldest, parseBigInt newest with
  | some a, some b => some (a - b)
  | _, _ => none

/-- fee_burn_per_ledger_xrp of the XRPL-native fetchXRPLMetrics: kept null
unless the exact burn is positive, then Number(burnDrops) / 1e6 / 5 rounded
to four decimals through toFixed/parseFloat.  The Number conversion is exact
for the burn magnitudes that survive the positivity test in practice; the
subtraction itself is the arbitrary-precision step. -/
def feeBurnPerLedgerXrp (oldest newest : String) : Option JN :=
  match totalCoinsBurnDrops oldest newest with
  | some d =>
      if 0 < d then
        some (pfToFixed 4 (jsDiv (jsDiv (JN.num (d : ℚ)) (JN.num 1000000)) (JN.num 5)))
      else none
  | none => none

end Xrpl

namespace Merchant

/-- Payment requirements stored per invoice by scripts/x402-merchant.js
(lines 181-189). -/
structure PayReq where
  scheme : String
  network : String
  amount : String
  asset : String
  payTo : String
  maxTimeoutSeconds : Nat
  invoiceId : String
  sourceTag : Nat
deriving Repr, DecidableEq

/-- Requirements object built when a 402 challenge is issued. -/
def mkRequirements (network priceDrops merchantAddr invoiceId : String) : PayReq :=
  { scheme := "exact"
    network := network
    amount := priceDrops
    asset := "XRP"
    payTo := merchantAddr
    maxTimeoutSeconds := 300
    invoiceId := invoiceId
    sourceTag := 804681468 }

/-- Facilitator endpoints the paywall route can call. -/
inductive FacCall where
  | verify : FacCall
  | settle : FacCall
deriving Repr, DecidableEq

/-- Outcome of the facilitator interaction, supplied as an oracle input:
verify can fail at HTTP level or reject, settle can fail at HTTP level or
report failure, either call can throw (timeout or other), or settlement
succeeds. -/
inductive FacOutcome where
  | verifyHttpFail : FacOutcome
  | verifyInvalid : FacOutcome
  | verifyThrow : Bool → FacOutcome
  | settleHttpFail : FacOutcome
  | settleNotSuccess : FacOutcome
  | settleThrow : Bool → FacOutcome
  | settled : FacOutcome
deriving Repr, DecidableEq

/-- One request hitting a paywalled route: no payment header, an undecodable
payment header, or a decoded header carrying an optional invoiceId together
with the facilitator outcome oracle. -/
inductive MEvent where
  | unsigned : String → MEvent
  | badSignature : MEvent
  | signed : Option String → FacOutcome → MEvent

/-- The paywall route handler of scripts/x402-merchant.js makePaywallRoute
(lines 173-304) acting on the pending-invoice store: no signature issues a
402 and records the fresh invoice; an undecodable signature is a 400 with no
facilitator call; a signature whose invoiceId is not in the store is a 402
with no facilitator call and no state change; otherwise verify (and on
success settle) run, and only a successful settlement removes the invoice
and answers 200.  Returns the new store, the HTTP status, and the
facilitator calls issued. -/
def paywallStep (network priceDrops merchantAddr : String)
    (s : List (String × PayReq)) :
    MEvent → List (String × PayReq) × Nat × List FacCall
  | MEvent.unsigned freshId =>
      (alistUpsert s freshId (mkRequirements network priceDrops merchantAddr freshId),
        402, [])
  | MEvent.badSignature => (s, 400, [])
  | MEvent.signed oid fac =>
      match oid.bind (alistLookup s) with
      | none => (s, 402, [])
      | some _ =>
          let theId := oid.getD ""
          match fac with
          | FacOutcome.verifyHttpFail => (s, 402, [FacCall.verify])
          | FacOutcome.verifyInvalid => (s, 402, [FacCall.verify])
          | FacOutcome.verifyThrow timeout =>
              (s, if timeout then 502 else 500, [FacCall.verify])
          | FacOutcome.settleHttpFail => (s, 402, [FacCall.verify, FacCall.settle])
          | FacOutcome.settleNotSuccess => (s, 402, [FacCall.verify, FacCall.settle])
          | FacOutcome.settleThrow timeout =>
              (s, if timeout then 502 else 500, [FacCall.verify, FacCall.settle])
          | FacOutcome.settled => (alistErase s theId, 200, [FacCall.verify, FacCall.settle])

/-- Expiry of a pending invoice: the setTimeout deletion armed at issue time
(x402-merchant.js line 192). -/
def expireInvoice (s : List (String × PayReq)) (id : String) :
    List (String × PayReq) :=
  alistErase s id

end Merchant

namespace Agent

/-- scripts/x402-agent.js main lines 386-388: the agent write places the
x402_agent block on the current document and keeps everything else. -/
def agentWriteX402 (dash : List (String × JVal)) (block : JVal) :
    List (String × JVal) :=
  alistUpsert dash "x402_agent" block

/-- Modelled from the spec: balance floor of the x402 agent's spending
guardrails (11 XRP per the repository decision log); the guardrail
enforcement code itself is not among the sources, only the agent without it
and the decision log describing it. -/
def BALANCE_FLOOR_DROPS : Nat := 11000000

/-- Modelled from the spec: per-transaction cap (5000 drops per the decision
log). -/
def PER_TX_CAP_DROPS : Nat := 5000

/-- Modelled from the spec: per-session cumulative cap (10000 drops per the
decision log). -/
def SESSION_CAP_DROPS : Nat := 10000

/-- Modelled from the spec: the guardrail check run before any submission,
in the spec's order — balance floor, per-transaction cap, per-session
cumulative cap, transaction-type whitelist (only a plain Payment) — each
violation naming its reason, the per-transaction violation as cap
exceeded. -/
def guardrailCheck (balanceDrops sessionSpentDrops amountDrops : Nat)
    (txType : String) : Option String :=
  if balanceDrops < BALANCE_FLOOR_DROPS + amountDrops then some "balance floor"
  else if PER_TX_CAP_DROPS < amountDrops then some "cap exceeded"
  else if SESSION_CAP_DROPS < sessionSpentDrops + amountDrops then
    some "session cap exceeded"
  else if txType ≠ "Payment" then some "transaction type not allowed"
  else none

/-- Outcome of one proposed payment in the guardrailed agent. -/
inductive AgentDecision where
  | submitted : AgentDecision
  | rejected : String → AgentDecision
deriving Repr, DecidableEq

/-- Modelled from the spec: one proposed payment either violates a guardrail
and is recorded REJECTED with no network submission, or is signed and
submitted (one network call). -/
def agentGuardedStep (balanceDrops sessionSpentDrops amountDrops : Nat)
    (txType : String) : AgentDecision × List String :=
  match guardrailCheck balanceDrops sessionSpentDrops amountDrops txType with
  | some reason => (AgentDecision.rejected reason, [])
  | none => (AgentDecision.submitted, ["submit"])

end Agent

/-! ### Theorems settling the claims -/

/-- C6: in the payment demo agent, a proposed payment exceeding the
per-transaction cap never issues a network call and is recorded REJECTED
with reason cap exceeded; the guardrail check (balance floor, per-transaction
cap, per-session cap, type whitelist) runs before any submission.  (The
guardrail code is modelled from the spec and the repository decision log;
the submission list of the step is empty exactly when a guardrail fires.) -/
theorem C6_guardrail_short_circuit
    (balance session amount : Nat) (ty : String)
    (hbal : Agent.BALANCE_FLOOR_DROPS + amount ≤ balance)
    (hcap : Agent.PER_TX_CAP_DROPS < amount) :
    Agent.agentGuardedStep balance session amount ty
      = (Agent.AgentDecision.rejected "cap exceeded", []) := by
  unfold Agent.agentGuardedStep Agent.guardrailCheck
  rw [if_neg (Nat.not_lt.mpr hbal), if_pos hcap]

/-- Witness for C6: a 6000-drop payment against a 12-XRP balance is rejected
with reason cap exceeded and no submission is issued. -/
theorem C6_guardrail_short_circuit_witness :
    Agent.agentGuardedStep 12000000 0 6000 "Payment"
      = (Agent.AgentDecision.rejected "cap exceeded", []) :=
  C6_guardrail_short_circuit 12000000 0 6000 "Payment" (by decide) (by decide)

/-- C8: the XRPL-native adapter subtracts the two total_coins quantities as
arbitrary-precision integers, so the difference is exact for any parsed
inputs; at the spec scenario values the difference is exactly 101. -/
theorem C8_bigint_burn_exact :
    (∀ (o n : String) (a b : Int),
        Xrpl.parseBigInt o = some a → Xrpl.parseBigInt n = some b →
        Xrpl.totalCoinsBurnDrops o n = some (a - b)) ∧
    Xrpl.totalCoinsBurnDrops "99999999999999999" "99999999999999898" = some 101 := by
  constructor
  · intro o n a b ho hn
    simp [Xrpl.totalCoinsBurnDrops, ho, hn]
  · decide

/-- Witness for C8: the generic exactness conjunct applied at the scenario
strings, with both parses discharged by evaluation. -/
theorem C8_bigint_burn_exact_witness :
    Xrpl.totalCoinsBurnDrops "99999999999999999" "99999999999999898"
      = some ((99999999999999999 : Int) - 99999999999999898) :=
  C8_bigint_burn_exact.1 "99999999999999999" "99999999999999898"
    99999999999999999 99999999999999898 (by decide) (by decide)

/-- C10: the merchant settles each invoiceId at most once.  A fresh 402
records the invoice; a decoded signature whose invoiceId is missing from the
store (never issued, expired, or already settled) is answered 402 with no
facilitator call and no state change; a successful settlement answers 200
and removes the invoice, so presenting the same invoiceId again is answered
402 with no facilitator call; expiry also removes the invoice. -/
theorem C10_invoice_settled_at_most_once
    (net price addr : String) (s : List (String × Merchant.PayReq)) :
    (∀ fac, Merchant.paywallStep net price addr s (Merchant.MEvent.signed none fac)
        = (s, 402, [])) ∧
    (∀ (id : String) fac, alistLookup s id = none →
        Merchant.paywallStep net price addr s (Merchant.MEvent.signed (some id) fac)
          = (s, 402, [])) ∧
    (∀ (id : String),
        alistLookup (Merchant.paywallStep net price addr s (Merchant.MEvent.unsigned id)).1 id
          = some (Merchant.mkRequirements net price addr id)) ∧
    (∀ (id : String) (r : Merchant.PayReq), alistLookup s id = some r →
        Merchant.paywallStep net price addr s
            (Merchant.MEvent.signed (some id) Merchant.FacOutcome.settled)
          = (alistErase s id, 200, [Merchant.FacCall.verify, Merchant.FacCall.settle])) ∧
    (∀ (id : String) (r : Merchant.PayReq) fac, alistLookup s id = some r →
        Merchant.paywallStep net price addr
            (Merchant.paywallStep net price addr s
              (Merchant.MEvent.signed (some id) Merchant.FacOutcome.settled)).1
            (Merchant.MEvent.signed (some id) fac)
          = ((Merchant.paywallStep net price addr s
              (Merchant.MEvent.signed (some id) Merchant.FacOutcome.settled)).1,
             402, [])) ∧
    (∀ (id : String), alistLookup (Merchant.expireInvoice s id) id = none) := by
  refine ⟨?_, ?_, ?_, ?_, ?_, ?_⟩
  · intro fac
    simp [Merchant.paywallStep]
  · intro id fac h
    simp [Merchant.paywallStep, h]
  · intro id
    simp [Merchant.paywallStep, alistLookup_upsert_same]
  · intro id r h
    simp [Merchant.paywallStep, h]
  · intro id r fac h
    simp [Merchant.paywallStep, h, alistLookup_erase_same]
  · intro id
    simp [Merchant.expireInvoice, alistLookup_erase_same]

/-- Witness for C10: with one pending invoice INV1, settling removes it and
a repeated presentation of INV1 is answered 402 with no facilitator call. -/
theorem C10_invoice_settled_at_most_once_witness :
    Merchant.paywallStep "xrpl:0" "1000" "rM"
        (Merchant.paywallStep "xrpl:0" "1000" "rM"
          [("INV1", Merchant.mkRequirements "xrpl:0" "1000" "rM" "INV1")]
          (Merchant.MEvent.signed (some "INV1") Merchant.FacOutcome.settled)).1
        (Merchant.MEvent.signed (some "INV1") Merchant.FacOutcome.settled)
      = ((Merchant.paywallStep "xrpl:0" "1000" "rM"
          [("INV1", Merchant.mkRequirements "xrpl:0" "1000" "rM" "INV1")]
          (Merchant.MEvent.signed (some "INV1") Merchant.FacOutcome.settled)).1,
         402, []) :=
  (C10_invoice_settled_at_most_once "xrpl:0" "1000" "rM"
      [("INV1", Merchant.mkRequirements "xrpl:0" "1000" "rM" "INV1")]).2.2.2.2.1
    "INV1" (Merchant.mkRequirements "xrpl:0" "1000" "rM" "INV1")
    Merchant.FacOutcome.settled rfl

/-- C3 counterexample: the news adapter refutes the universal claim — with
the CryptoPanic key set, an upstream failure there, and no NewsData key, the
health entry recorded for the news source is skip, not fail, although the
upstream genuinely failed. -/
theorem C3_counterexample :
    FetchData.fetchNews true (Except.error "HTTP 502") false (Except.ok JVal.jnull)
        [] "T" 0
      = (FetchData.newsDefault "T", "skip") ∧ ("skip" : String) ≠ "fail" :=
  ⟨rfl, by decide⟩

/-- C3 (amended): for the embedded adapters, fetch never raises (the
embedding is total over every upstream outcome) and on an upstream failure —
a network error or an unexpected response shape — the returned record is the
previous record (or the documented default when none exists) with health
fail; except that the news adapter records skip — not fail — when its
primary source fails and no fallback key is configured (still returning the
cached or empty headlines), and records fail when a configured fallback also
fails. -/
theorem C3_adapter_failure_fallback :
    (∀ (msg : String) (existing : List (String × JVal)),
        FetchData.fetchXRP (Except.error msg) existing
          = (coalesceJ (getJ existing "xrp") FetchData.xrpNullDefault, "fail")) ∧
    (∀ (data : JVal) (existing : List (String × JVal)),
        isFalsyJ (getJv data "ripple") = true →
        FetchData.fetchXRP (Except.ok data) existing
          = (coalesceJ (getJ existing "xrp") FetchData.xrpNullDefault, "fail")) ∧
    (∀ (msg : String) (fb : JVal),
        FetchData.fetchFRED true (Except.error msg) fb = (fb, "fail")) ∧
    (∀ (data fb : JVal),
        FetchData.findObs (getJv data "observations") = none →
        FetchData.fetchFRED true (Except.ok data) fb = (fb, "fail")) ∧
    (∀ (e : String) (ndUp : Except String JVal)
        (existing : List (String × JVal)) (ts : String) (nowMs : Int),
        FetchData.fetchNews true (Except.error e) false ndUp existing ts nowMs
          = (coalesceJ (getJ existing "news") (FetchData.newsDefault ts), "skip")) ∧
    (∀ (e e2 : String) (existing : List (String × JVal)) (ts : String) (nowMs : Int),
        FetchData.fetchNews true (Except.error e) true (Except.error e2)
            existing ts nowMs
          = (coalesceJ (getJ existing "news") (FetchData.newsDefault ts), "fail")) := by
  refine ⟨?_, ?_, ?_, ?_, ?_, ?_⟩
  · intro msg existing
    simp [FetchData.fetchXRP]
  · intro data existing h
    simp [FetchData.fetchXRP, h]
  · intro msg fb
    simp [FetchData.fetchFRED]
  · intro data fb h
    simp [FetchData.fetchFRED, h]
  · intro e ndUp existing ts nowMs
    simp [FetchData.fetchNews]
  · intro e e2 existing ts nowMs
    simp [FetchData.fetchNews]

/-- Witness for C3 (amended): a timed-out XRP fetch returns the cached
record with a fail entry; a shape-mismatched response does the same; a
failed FRED fetch returns its fallback with fail; a failed CryptoPanic fetch
with no NewsData key returns the cached news with skip; with a NewsData key
that also fails, the entry is fail. -/
theorem C3_adapter_failure_fallback_witness :
    FetchData.fetchXRP (Except.error "timeout")
        [("xrp", JVal.jobj [("price", JVal.jnum 2)])]
      = (JVal.jobj [("price", JVal.jnum 2)], "fail") ∧
    FetchData.fetchXRP (Except.ok (JVal.jobj [])) []
      = (FetchData.xrpNullDefault, "fail") ∧
    FetchData.fetchFRED true (Except.error "HTTP 500") (JVal.jnum 7)
      = (JVal.jnum 7, "fail") ∧
    FetchData.fetchNews true (Except.error "timeout") false (Except.ok JVal.jnull)
        [("news", JVal.jstr "cached")] "T" 0
      = (JVal.jstr "cached", "skip") ∧
    FetchData.fetchNews true (Except.error "x") true (Except.error "y") [] "T" 0
      = (FetchData.newsDefault "T", "fail") := by
  refine ⟨?_, ?_, ?_, ?_, ?_⟩
  · have h := C3_adapter_failure_fallback.1 "timeout"
      [("xrp", JVal.jobj [("price", JVal.jnum 2)])]
    rw [h]; rfl
  · have h := C3_adapter_failure_fallback.2.1 (JVal.jobj []) [] (by rfl)
    rw [h]; rfl
  · exact C3_adapter_failure_fallback.2.2.1 "HTTP 500" (JVal.jnum 7)
  · have h := C3_adapter_failure_fallback.2.2.2.2.1 "timeout" (Except.ok JVal.jnull)
      [("news", JVal.jstr "cached")] "T" 0
    rw [h]; rfl
  · have h := C3_adapter_failure_fallback.2.2.2.2.2 "x" "y" [] "T" 0
    rw [h]; rfl

/-- Rebuilt clarity-act slot: the manual block the cycle rebuilds carries
the previous value coalesced with the Pending default. -/
theorem clarity_slot_of_buildManual (existing : List (String × JVal)) :
    getJ (FetchData.buildManual existing) "clarity_act_status"
      = coalesceJ (getJ (FetchData.manualFieldsOf existing) "clarity_act_status")
          (JVal.jstr "Pending") := by
  simp [FetchData.buildManual, getJ, alistLookup]

/-- The kill-switch builder yields an error or a value exactly as the
clarity toLowerCase call on the rebuilt clarity slot does. -/
theorem buildKillSwitches_isOk (manual rlusd etf : List (String × JVal)) :
    (FetchData.buildKillSwitches manual rlusd etf).isOk
      = (FetchData.clarityStatus
          (coalesceJ (getJ manual "clarity_act_status")
            (JVal.jstr "pending"))).isOk := by
  simp only [FetchData.buildKillSwitches]
  cases FetchData.clarityStatus
      (coalesceJ (getJ manual "clarity_act_status") (JVal.jstr "pending")) with
  | error e => rfl
  | ok h => rfl

/-- The kill-switch builder succeeds exactly on the well-formed clarity
statuses: when the previous manual.clarity_act_status is absent, null, or a
string, the rebuilt value reaching toLowerCase is a string and no TypeError
is thrown. -/
theorem buildKillSwitches_ok_of_wf (existing rlusd etf : List (String × JVal))
    (hwf : FetchData.clarityWellFormed existing = true) :
    ∃ ks, FetchData.buildKillSwitches (FetchData.buildManual existing) rlusd etf
        = Except.ok ks := by
  have hok : (FetchData.buildKillSwitches (FetchData.buildManual existing)
      rlusd etf).isOk = true := by
    rw [buildKillSwitches_isOk, clarity_slot_of_buildManual]
    cases hc : getJ (FetchData.manualFieldsOf existing) "clarity_act_status" with
    | jnull => rfl
    | jstr s => rfl
    | jbool b =>
        simp only [FetchData.clarityWellFormed, hc] at hwf
        exact Bool.noConfusion hwf
    | jnum q =>
        simp only [FetchData.clarityWellFormed, hc] at hwf
        exact Bool.noConfusion hwf
    | jarr l =>
        simp only [FetchData.clarityWellFormed, hc] at hwf
        exact Bool.noConfusion hwf
    | jobj fs =>
        simp only [FetchData.clarityWellFormed, hc] at hwf
        exact Bool.noConfusion hwf
  cases h : FetchData.buildKillSwitches (FetchData.buildManual existing)
      rlusd etf with
  | ok ks => exact ⟨ks, rfl⟩
  | error e => rw [h] at hok; exact Bool.noConfusion hok

/-- C9 counterexample: the spec scenario health (3 failures among 4 sources)
combined with a previous document whose manual.clarity_act_status is a
number makes the cycle throw at the clarity toLowerCase call before the
write: nothing is persisted and no notification is sent, refuting that with
three or more failures the cycle still completes, persists, and triggers
exactly one escalation. -/
theorem C9_counterexample :
    (FetchData.failedSources
        [("priceSource", "ok"), ("fxSource", "fail"), ("newsSource", "fail"),
         ("yieldSource", "fail")]).length = 3 ∧
    FetchData.mainCycle "t"
        [("manual", JVal.jobj [("clarity_act_status", JVal.jnum 42)])]
        [] [] [] [] [] [] [] JVal.jnull JVal.jnull JVal.jnull JVal.jnull
        JVal.jnull JVal.jnull
        [("priceSource", "ok"), ("fxSource", "fail"), ("newsSource", "fail"),
         ("yieldSource", "fail")]
      = Except.error "TypeError: clarity.toLowerCase is not a function" :=
  ⟨rfl, rfl⟩

/-- C9 (amended): the escalation notification fires exactly once when three
or more sources report fail and never with fewer; and whenever the merge
completes — which it does exactly when the previous document's
manual.clarity_act_status is absent, null, or a string — the cycle persists
a document with the full fixed key schema and then runs that escalation
decision.  When the merge throws instead, nothing is persisted and no
notification is sent (see the counterexample). -/
theorem C9_escalation_threshold :
    (∀ (h : List (String × String)) (ts : String),
        (3 ≤ (FetchData.failedSources h).length →
          (FetchData.escalationMsgs h ts).length = 1) ∧
        ((FetchData.failedSources h).length < 3 →
          (FetchData.escalationMsgs h ts).length = 0)) ∧
    (∀ (ts : String) (existing xrp rlusd etf btc eth supply xm : List (String × JVal))
        (news a b c d e : JVal) (health : List (String × String)),
        FetchData.clarityWellFormed existing = true →
        ∃ doc, FetchData.mainCycle ts existing xrp rlusd etf btc eth supply xm
              news a b c d e health
            = Except.ok (doc, FetchData.escalationMsgs health ts)
          ∧ doc.map Prod.fst = FetchData.fetchDataKeys) := by
  constructor
  · intro h ts
    constructor
    · intro hge
      simp [FetchData.escalationMsgs, hge]
    · intro hlt
      simp [FetchData.escalationMsgs, Nat.not_le.mpr hlt]
  · intro ts existing xrp rlusd etf btc eth supply xm news a b c d e health hwf
    obtain ⟨ks, hks⟩ := buildKillSwitches_ok_of_wf existing rlusd
      (FetchData.enrichEtf etf xrp) hwf
    refine ⟨FetchData.assembledDoc ts existing xrp rlusd etf btc eth supply xm
      news a b c d e health ks, ?_, ?_⟩
    · simp only [FetchData.mainCycle, FetchData.mainAssemble, hks]
    · rfl

/-- Witness for C9 (amended): the spec scenario — price ok, fx / news /
yield fail — sends exactly one escalation message, two failures send none,
and with a well-formed previous document the cycle completes and persists
the full schema. -/
theorem C9_escalation_threshold_witness :
    (FetchData.escalationMsgs
        [("priceSource", "ok"), ("fxSource", "fail"), ("newsSource", "fail"),
         ("yieldSource", "fail")] "2026-02-25").length = 1 ∧
    (FetchData.escalationMsgs
        [("priceSource", "ok"), ("fxSource", "fail"), ("newsSource", "fail")]
        "2026-02-25").length = 0 ∧
    (∃ doc, FetchData.mainCycle "2026-02-25" [] [] [] [] [] [] [] []
          JVal.jnull JVal.jnull JVal.jnull JVal.jnull JVal.jnull JVal.jnull
          [("priceSource", "ok"), ("fxSource", "fail"), ("newsSource", "fail"),
           ("yieldSource", "fail")]
        = Except.ok (doc, FetchData.escalationMsgs
            [("priceSource", "ok"), ("fxSource", "fail"), ("newsSource", "fail"),
             ("yieldSource", "fail")] "2026-02-25")) := by
  refine ⟨?_, ?_, ?_⟩
  · exact (C9_escalation_threshold.1
        [("priceSource", "ok"), ("fxSource", "fail"), ("newsSource", "fail"),
         ("yieldSource", "fail")] "2026-02-25").1 (by decide)
  · exact (C9_escalation_threshold.1
        [("priceSource", "ok"), ("fxSource", "fail"), ("newsSource", "fail")]
        "2026-02-25").2 (by decide)
  · obtain ⟨doc, h1, h2⟩ := C9_escalation_threshold.2 "2026-02-25" [] [] [] []
      [] [] [] [] JVal.jnull JVal.jnull JVal.jnull JVal.jnull JVal.jnull
      JVal.jnull
      [("priceSource", "ok"), ("fxSource", "fail"), ("newsSource", "fail"),
       ("yieldSource", "fail")] rfl
    exact ⟨doc, h1⟩

/-- C1 counterexample: both halves of the claim fail.  A previous state
document carrying the top-level key x402_agent (which the x402 agent writes
into the persisted document) loses that key in the next cycle's output; and
the merge is not total — a previous document whose
manual.clarity_act_status is a number makes the clarity toLowerCase call
throw a TypeError, aborting the cycle with nothing written. -/
theorem C1_counterexample :
    alistLookup [("x402_agent", JVal.jstr "block")] "x402_agent"
        = some (JVal.jstr "block") ∧
    Except.map (fun doc => alistLookup doc "x402_agent")
        (FetchData.mainAssemble "t" [("x402_agent", JVal.jstr "block")]
          [] [] [] [] [] [] [] JVal.jnull JVal.jnull JVal.jnull JVal.jnull
          JVal.jnull JVal.jnull []) = Except.ok none ∧
    FetchData.mainAssemble "t"
        [("manual", JVal.jobj [("clarity_act_status", JVal.jnum 42)])]
        [] [] [] [] [] [] [] JVal.jnull JVal.jnull JVal.jnull JVal.jnull
        JVal.jnull JVal.jnull []
      = Except.error "TypeError: clarity.toLowerCase is not a function" :=
  ⟨rfl, rfl, rfl⟩

/-- C1 (amended): whenever the merge completes it writes a document with
exactly the fixed top-level key schema, and it completes exactly when the
previous document's manual.clarity_act_status is absent, null, or a string
(a non-string truthy value reaches toLowerCase and throws, aborting the
cycle with nothing written); on completion the editorially-owned keys
(thesis_scores, bear_case, probability, last_analysis) are carried from the
previous document (thesis_scores when non-null, the others verbatim); the
x402 agent's write preserves every other key of the document while setting
x402_agent.  Previous-state keys outside the fixed schema are not carried
(see the counterexample). -/
theorem C1_merge_fixed_schema :
    (∀ (ts : String) (existing xrp rlusd etf btc eth supply xm : List (String × JVal))
        (news a b c d e : JVal) (health : List (String × String))
        (doc : List (String × JVal)),
        FetchData.mainAssemble ts existing xrp rlusd etf btc eth supply xm
            news a b c d e health = Except.ok doc →
        doc.map Prod.fst = FetchData.fetchDataKeys) ∧
    (∀ (ts : String) (existing xrp rlusd etf btc eth supply xm : List (String × JVal))
        (news a b c d e : JVal) (health : List (String × String)),
        FetchData.clarityWellFormed existing = true →
        ∃ doc, FetchData.mainAssemble ts existing xrp rlusd etf btc eth supply xm
            news a b c d e health = Except.ok doc) ∧
    (∀ (ts : String) (existing xrp rlusd etf btc eth supply xm : List (String × JVal))
        (news a b c d e : JVal) (health : List (String × String))
        (doc : List (String × JVal)) (k : String),
        FetchData.mainAssemble ts existing xrp rlusd etf btc eth supply xm
            news a b c d e health = Except.ok doc →
        k ∈ ["bear_case", "probability", "last_analysis"] →
        alistLookup doc k = some (getJ existing k)) ∧
    (∀ (ts : String) (existing xrp rlusd etf btc eth supply xm : List (String × JVal))
        (news a b c d e : JVal) (health : List (String × String))
        (doc : List (String × JVal)) (v : JVal),
        FetchData.mainAssemble ts existing xrp rlusd etf btc eth supply xm
            news a b c d e health = Except.ok doc →
        getJ existing "thesis_scores" = v → v ≠ JVal.jnull →
        alistLookup doc "thesis_scores" = some v) ∧
    (∀ (dash : List (String × JVal)) (block : JVal) (k : String),
        k ≠ "x402_agent" →
        alistLookup (Agent.agentWriteX402 dash block) k = alistLookup dash k) ∧
    (∀ (dash : List (String × JVal)) (block : JVal),
        alistLookup (Agent.agentWriteX402 dash block) "x402_agent" = some block) := by
  refine ⟨?_, ?_, ?_, ?_, ?_, ?_⟩
  · intro ts existing xrp rlusd etf btc eth supply xm news a b c d e health doc hdoc
    cases hks : FetchData.buildKillSwitches (FetchData.buildManual existing)
        rlusd (FetchData.enrichEtf etf xrp) with
    | error er => simp [FetchData.mainAssemble, hks] at hdoc
    | ok ks =>
        simp only [FetchData.mainAssemble, hks, Except.ok.injEq] at hdoc
        subst hdoc
        rfl
  · intro ts existing xrp rlusd etf btc eth supply xm news a b c d e health hwf
    obtain ⟨ks, hks⟩ := buildKillSwitches_ok_of_wf existing rlusd
      (FetchData.enrichEtf etf xrp) hwf
    exact ⟨FetchData.assembledDoc ts existing xrp rlusd etf btc eth supply xm
      news a b c d e health ks,
      by simp only [FetchData.mainAssemble, hks]⟩
  · intro ts existing xrp rlusd etf btc eth supply xm news a b c d e health doc k
      hdoc hk
    cases hks : FetchData.buildKillSwitches (FetchData.buildManual existing)
        rlusd (FetchData.enrichEtf etf xrp) with
    | error er => simp [FetchData.mainAssemble, hks] at hdoc
    | ok ks =>
        simp only [FetchData.mainAssemble, hks, Except.ok.injEq] at hdoc
        subst hdoc
        simp only [List.mem_cons, List.mem_singleton] at hk
        rcases hk with rfl | rfl | (rfl | h)
        · rfl
        · rfl
        · rfl
        · exact absurd h (List.not_mem_nil k)
  · intro ts existing xrp rlusd etf btc eth supply xm news a b c d e health doc v
      hdoc hv hnn
    cases hks : FetchData.buildKillSwitches (FetchData.buildManual existing)
        rlusd (FetchData.enrichEtf etf xrp) with
    | error er => simp [FetchData.mainAssemble, hks] at hdoc
    | ok ks =>
        simp only [FetchData.mainAssemble, hks, Except.ok.injEq] at hdoc
        subst hdoc
        have hbase : alistLookup
            (FetchData.assembledDoc ts existing xrp rlusd etf btc eth supply xm
              news a b c d e health ks) "thesis_scores"
            = some (coalesceJ (getJ existing "thesis_scores")
                FetchData.defaultThesisScores) := rfl
        rw [hbase, hv]
        cases v with
        | jnull => exact absurd rfl hnn
        | jbool bb => rfl
        | jnum q => rfl
        | jstr s => rfl
        | jarr l => rfl
        | jobj fs => rfl
  · intro dash block k hk
    exact alistLookup_upsert_other dash "x402_agent" k block hk
  · intro dash block
    exact alistLookup_upsert_same dash "x402_agent" block

/-- Witness for C1 (amended): a concrete well-formed previous document
completes the merge; the produced document has the fixed schema and carries
bear_case; the agent write preserves a foreign key. -/
theorem C1_merge_fixed_schema_witness :
    FetchData.clarityWellFormed [("bear_case", JVal.jstr "bc")] = true ∧
    (∃ doc, FetchData.mainAssemble "t" [("bear_case", JVal.jstr "bc")]
          [] [] [] [] [] [] [] JVal.jnull JVal.jnull JVal.jnull JVal.jnull
          JVal.jnull JVal.jnull [] = Except.ok doc
        ∧ doc.map Prod.fst = FetchData.fetchDataKeys
        ∧ alistLookup doc "bear_case"
            = some (getJ [("bear_case", JVal.jstr "bc")] "bear_case")) ∧
    alistLookup
        (Agent.agentWriteX402 [("updated", JVal.jstr "t")] (JVal.jstr "blk"))
        "updated" = some (JVal.jstr "t") := by
  refine ⟨rfl, ?_, ?_⟩
  · obtain ⟨doc, hdoc⟩ := C1_merge_fixed_schema.2.1 "t"
      [("bear_case", JVal.jstr "bc")] [] [] [] [] [] [] [] JVal.jnull
      JVal.jnull JVal.jnull JVal.jnull JVal.jnull JVal.jnull [] rfl
    exact ⟨doc, hdoc,
      C1_merge_fixed_schema.1 "t" [("bear_case", JVal.jstr "bc")] [] [] [] []
        [] [] [] JVal.jnull JVal.jnull JVal.jnull JVal.jnull JVal.jnull
        JVal.jnull [] doc hdoc,
      C1_merge_fixed_schema.2.2.1 "t" [("bear_case", JVal.jstr "bc")] [] [] []
        [] [] [] [] JVal.jnull JVal.jnull JVal.jnull JVal.jnull JVal.jnull
        JVal.jnull [] doc "bear_case" hdoc (by simp)⟩
  · have h := C1_merge_fixed_schema.2.2.2.2.1 [("updated", JVal.jstr "t")]
      (JVal.jstr "blk") "updated" (by decide)
    rw [h]; rfl

/-- C4 counterexample: a previous document with manual.targetA = 500 — a
manual field outside the fixed six-key list the cycle rebuilds — loses that
field: the rebuilt manual block has no targetA binding, refuting
preservation for arbitrary manual field names. -/
theorem C4_counterexample :
    alistLookup [("targetA", JVal.jnum 500)] "targetA" = some (JVal.jnum 500) ∧
    alistLookup
        (FetchData.buildManual [("manual", JVal.jobj [("targetA", JVal.jnum 500)])])
        "targetA" = none :=
  ⟨rfl, rfl⟩

/-- C4 (amended): manual-field preservation holds for the six fields the
cycle rebuilds — odl_volume_annualized, xrp_etf_aum, rlusd_circulation,
permissioned_dex_institutions, clarity_act_status, _last_manual_update: any
non-null previous value is carried into the new manual block verbatim.
Fields outside this fixed list are dropped (see the counterexample). -/
theorem C4_manual_fixed_fields_preserved
    (existing : List (String × JVal)) (m : List (String × JVal))
    (k : String) (v : JVal)
    (hm : getJ existing "manual" = JVal.jobj m)
    (hk : k ∈ ["odl_volume_annualized", "xrp_etf_aum", "rlusd_circulation",
      "permissioned_dex_institutions", "clarity_act_status",
      "_last_manual_update"])
    (hv : getJ m k = v) (hnn : v ≠ JVal.jnull) :
    alistLookup (FetchData.buildManual existing) k = some v := by
  have hbm : FetchData.buildManual existing =
      [("odl_volume_annualized", getJ m "odl_volume_annualized"),
       ("xrp_etf_aum", getJ m "xrp_etf_aum"),
       ("rlusd_circulation", getJ m "rlusd_circulation"),
       ("permissioned_dex_institutions", getJ m "permissioned_dex_institutions"),
       ("clarity_act_status",
         coalesceJ (getJ m "clarity_act_status") (JVal.jstr "Pending")),
       ("_last_manual_update", getJ m "_last_manual_update")] := by
    simp [FetchData.buildManual, FetchData.manualFieldsOf, hm]
  simp only [List.mem_cons, List.mem_singleton] at hk
  rcases hk with rfl | rfl | rfl | rfl | rfl | (rfl | h)
  · rw [hbm]; simpa [alistLookup] using hv
  · rw [hbm]; simpa [alistLookup] using hv
  · rw [hbm]; simpa [alistLookup] using hv
  · rw [hbm]; simpa [alistLookup] using hv
  · rw [hbm]
    have : alistLookup
        [("odl_volume_annualized", getJ m "odl_volume_annualized"),
         ("xrp_etf_aum", getJ m "xrp_etf_aum"),
         ("rlusd_circulation", getJ m "rlusd_circulation"),
         ("permissioned_dex_institutions", getJ m "permissioned_dex_institutions"),
         ("clarity_act_status",
           coalesceJ (getJ m "clarity_act_status") (JVal.jstr "Pending")),
         ("_last_manual_update", getJ m "_last_manual_update")]
        "clarity_act_status"
        = some (coalesceJ (getJ m "clarity_act_status") (JVal.jstr "Pending")) := by
      simp [alistLookup]
    rw [this, hv]
    cases v with
    | jnull => exact absurd rfl hnn
    | jbool b => rfl
    | jnum q => rfl
    | jstr s => rfl
    | jarr l => rfl
    | jobj fs => rfl
  · rw [hbm]; simpa [alistLookup] using hv
  · exact absurd h (List.not_mem_nil k)

/-- Witness for C4 (amended): a concrete previous document with
manual.odl_volume_annualized = 500 keeps that value in the rebuilt manual
block. -/
theorem C4_manual_fixed_fields_preserved_witness :
    alistLookup
        (FetchData.buildManual
          [("manual", JVal.jobj [("odl_volume_annualized", JVal.jnum 500)])])
        "odl_volume_annualized" = some (JVal.jnum 500) :=
  C4_manual_fixed_fields_preserved
    [("manual", JVal.jobj [("odl_volume_annualized", JVal.jnum 500)])]
    [("odl_volume_annualized", JVal.jnum 500)]
    "odl_volume_annualized" (JVal.jnum 500) rfl (by simp) rfl (by intro h; cases h)

/-- Evaluation of the embedded parseFloat at small digit strings used by
concrete instances below. -/
theorem parseFloatQ_zero : parseFloatQ (stripCommas "0") = JN.num 0 := by
  simp +decide [stripCommas, parseFloatQ, natOfDigits, fracOfDigits]

/-- Evaluation of the embedded parseFloat at the literal 100. -/
theorem parseFloatQ_hundred : parseFloatQ (stripCommas "100") = JN.num 100 := by
  simp +decide [stripCommas, parseFloatQ, natOfDigits, fracOfDigits]

/-- Evaluation of the embedded parseFloat at the literal 5. -/
theorem parseFloatQ_five : parseFloatQ (stripCommas "5") = JN.num 5 := by
  simp +decide [stripCommas, parseFloatQ, natOfDigits, fracOfDigits]

/-- C5 counterexample: in the iShares adapter the ETF NAV-per-share is the
unguarded division total_aum / shares_outstanding; with a parsed
shares-outstanding of 0 and a positive AUM the derived field evaluates to
Infinity, not null, refuting the claim that every derived field with a zero
denominator resolves to null. -/
theorem C5_counterexample :
    (FetchData.iSharesCompute "IBIT" "0" "100" none JVal.jnull).shares_outstanding
        = JN.num 0 ∧
    (FetchData.iSharesCompute "IBIT" "0" "100" none JVal.jnull).nav_per_share
        = JN.inf := by
  constructor
  · simp [FetchData.iSharesCompute, parseFloatQ_zero]
  · norm_num [FetchData.iSharesCompute, parseFloatQ_zero, parseFloatQ_hundred,
      jsDiv]

/-- C5 (amended): the kill-switch percentage-complete helper resolves to
null whenever an operand is null or the target is zero, and the
DEX-volume-in-XRP conversion leaves the field untouched (null) whenever the
price is null or zero; but the ETF percentage-of-supply with a zero
market-cap (hence zero circulating-supply denominator) and the ETF
NAV-per-share with zero shares outstanding evaluate to Infinity in the
computed record — they are guarded only against null operands and a
non-positive price. -/
theorem C5_division_guards :
    (∀ c t : JVal, c = JVal.jnull ∨ t = JVal.jnull ∨ t = JVal.jnum 0 →
        FetchData.pct c t = JVal.jnull) ∧
    (∀ (xm xrp : List (String × JVal)),
        getJ xrp "price" = JVal.jnull ∨ getJ xrp "price" = JVal.jnum 0 →
        FetchData.enrichXrplMetrics xm xrp = xm) ∧
    (∀ (l p : ℚ), 0 < l → 0 < p →
        FetchData.etfPctSupplyCalc (JN.num l) (JN.num 0) (JN.num p) = JN.inf) ∧
    (∀ (label sharesStr assetStr : String) (asOf : Option String)
        (prev : JVal) (q : ℚ),
        parseFloatQ (stripCommas sharesStr) = JN.num 0 →
        parseFloatQ (stripCommas assetStr) = JN.num q → 0 < q →
        (FetchData.iSharesCompute label sharesStr assetStr asOf prev).nav_per_share
          = JN.inf) := by
  refine ⟨?_, ?_, ?_, ?_⟩
  · intro c t h
    rcases h with rfl | rfl | rfl
    · cases t <;> rfl
    · cases c <;> rfl
    · cases c <;> simp [FetchData.pct]
  · intro xm xrp h
    rcases h with hp | hp <;>
      cases hu : getJ xm "dex_volume_24h_usd" <;>
        simp [FetchData.enrichXrplMetrics, hp, hu]
  · intro l p hl hp
    simp [FetchData.etfPctSupplyCalc, jsDiv, jsMul, pfToFixed,
      hp.ne', hl.ne', hl, not_lt.mpr hp.le]
  · intro label sharesStr assetStr asOf prev q h0 hq hqpos
    simp [FetchData.iSharesCompute, h0, hq, jsDiv, hqpos.ne', hqpos]

/-- Witness for C5 (amended): concrete instances of each conjunct — a null
current and a zero target give a null percentage, a zero price leaves the
DEX conversion null, and the two unguarded divisions produce Infinity. -/
theorem C5_division_guards_witness :
    FetchData.pct JVal.jnull (JVal.jnum 5) = JVal.jnull ∧
    FetchData.pct (JVal.jnum 7) (JVal.jnum 0) = JVal.jnull ∧
    FetchData.enrichXrplMetrics [("dex_volume_24h_usd", JVal.jnum 6)]
        [("price", JVal.jnum 0)] = [("dex_volume_24h_usd", JVal.jnum 6)] ∧
    FetchData.etfPctSupplyCalc (JN.num 3) (JN.num 0) (JN.num 2) = JN.inf ∧
    (FetchData.iSharesCompute "ETHA" "0" "5" none JVal.jnull).nav_per_share
        = JN.inf := by
  refine ⟨?_, ?_, ?_, ?_, ?_⟩
  · exact C5_division_guards.1 JVal.jnull (JVal.jnum 5) (Or.inl rfl)
  · exact C5_division_guards.1 (JVal.jnum 7) (JVal.jnum 0) (Or.inr (Or.inr rfl))
  · exact C5_division_guards.2.1 [("dex_volume_24h_usd", JVal.jnum 6)]
      [("price", JVal.jnum 0)] (Or.inr rfl)
  · exact C5_division_guards.2.2.1 3 2 (by norm_num) (by norm_num)
  · exact C5_division_guards.2.2.2 "ETHA" "0" "5" none JVal.jnull 5
      parseFloatQ_zero parseFloatQ_five (by norm_num)

/-- Formalization of the claim phrase titles differing only by case or
punctuation, used only to state the C7 counterexample: two titles so related
agree after lower-casing and removing every non-alphanumeric character. -/
def casePunctCanon (s : String) : String :=
  String.mk ((s.data.map Char.toLower).filter ApplyAnalysis.isLowerAlnum)

/-- C7 counterexample: the titles Coop Launch and Co-op Launch differ only
by punctuation (their case-and-punctuation canonical forms agree), yet
titleKey collapses the punctuation run to a space instead of removing it, so
the two keys differ and inserting both events yields two insertions, not
one. -/
theorem C7_counterexample :
    casePunctCanon "Coop Launch" = casePunctCanon "Co-op Launch" ∧
    ApplyAnalysis.titleKey "Coop Launch" ≠ ApplyAnalysis.titleKey "Co-op Launch" ∧
    (ApplyAnalysis.insertEventsIntoHTML "const EVENTS_DATA = [\n]" []
        [⟨"Feb 20", some "REGULATORY", some "ELEVATED", "Coop Launch", some "d"⟩,
         ⟨"Feb 21", some "REGULATORY", some "ELEVATED", "Co-op Launch", some "d"⟩]
        2026 "2026-02-25" "FEB 25").inserted = 2 := by
  refine ⟨by decide, by decide, by decide⟩

/-- C7 (amended): two proposed events whose titles normalize to the same
titleKey (lower-case, non-alphanumeric runs collapsed to one space, trimmed,
truncated to 40 characters) — which covers differences of case and of
substituted punctuation, though not punctuation inserted inside a word —
yield exactly one insertion when the key is fresh: the first event's entry
is spliced at the head of the EVENTS_DATA collection and its key recorded in
the history set, and the second event is skipped. -/
theorem C7_dedup_single_insertion
    (e1 e2 : ApplyAnalysis.EventDraft) (html : String) (hist : List String)
    (year : Nat) (ti tl : String) (i : Nat)
    (ht1 : (e1.title == "") = false) (ht2 : (e2.title == "") = false)
    (hkey : ApplyAnalysis.titleKey e2.title = ApplyAnalysis.titleKey e1.title)
    (hm : findSubstrIdx html ApplyAnalysis.markerStr = some i)
    (hex : ((ApplyAnalysis.extractTitles html).map ApplyAnalysis.titleKey).contains
        (ApplyAnalysis.titleKey e1.title) = false)
    (hh : hist.contains (ApplyAnalysis.titleKey e1.title) = false) :
    ApplyAnalysis.insertEventsIntoHTML html hist [e1, e2] year ti tl =
      ⟨strTake html (i + ApplyAnalysis.markerStr.length + 1) ++ "\n"
          ++ ApplyAnalysis.buildEventEntry e1 year ti tl ++ ",\n"
          ++ strDrop html (i + ApplyAnalysis.markerStr.length + 1),
        hist ++ [ApplyAnalysis.titleKey e1.title], 1⟩ := by
  have hd : ApplyAnalysis.dedupLoop [e1, e2]
      ((ApplyAnalysis.extractTitles html).map ApplyAnalysis.titleKey) hist
      = ([e1], hist ++ [ApplyAnalysis.titleKey e1.title], 1) := by
    have hcontains : (((ApplyAnalysis.extractTitles html).map ApplyAnalysis.titleKey
        ++ [ApplyAnalysis.titleKey e1.title]).contains
          (ApplyAnalysis.titleKey e1.title)) = true := by
      simp
    simp only [ApplyAnalysis.dedupLoop, ht1, ht2, hkey, hex, hh, hcontains,
      Bool.or_false, Bool.false_or, Bool.true_or, Bool.false_eq_true,
      if_false, if_true, ite_false, ite_true]
  simp [ApplyAnalysis.insertEventsIntoHTML, hm, hd, ApplyAnalysis.joinWith,
    String.append_assoc]

/-- Witness for C7 (amended): the titles RLUSD Launch! and rlusd launch
share the key rlusd launch; against an empty history and an event array with
no prior entries, exactly the first is inserted and its key recorded. -/
theorem C7_dedup_single_insertion_witness :
    ApplyAnalysis.insertEventsIntoHTML "const EVENTS_DATA = [\n]" []
        [⟨"Feb 20", none, none, "RLUSD Launch!", none⟩,
         ⟨"Feb 20", none, none, "rlusd launch", none⟩] 2026 "2026-02-25" "FEB 25"
      = ⟨strTake "const EVENTS_DATA = [\n]" (0 + ApplyAnalysis.markerStr.length + 1)
            ++ "\n"
            ++ ApplyAnalysis.buildEventEntry ⟨"Feb 20", none, none, "RLUSD Launch!", none⟩
                2026 "2026-02-25" "FEB 25" ++ ",\n"
            ++ strDrop "const EVENTS_DATA = [\n]" (0 + ApplyAnalysis.markerStr.length + 1),
          [ApplyAnalysis.titleKey "RLUSD Launch!"], 1⟩ :=
  C7_dedup_single_insertion
    ⟨"Feb 20", none, none, "RLUSD Launch!", none⟩
    ⟨"Feb 20", none, none, "rlusd launch", none⟩
    "const EVENTS_DATA = [\n]" [] 2026 "2026-02-25" "FEB 25" 0
    (by decide) (by decide) (by decide) (by decide) (by decide) (by decide)

/-- The change count of the scorecard loop does not consult the dashboard
state: the skip conditions compare only fields of the opinion document. -/
theorem applyScorecard_count_state_blind (us : List ApplyAnalysis.ScoreUpdate) :
    ∀ ts ts', (ApplyAnalysis.applyScorecard us ts).2.1
      = (ApplyAnalysis.applyScorecard us ts').2.1 := by
  induction us with
  | nil => intro ts ts'; rfl
  | cons u rest ih =>
      intro ts ts'
      by_cases hb : (u.recommended_status == u.previous_status) = true
      · simp [ApplyAnalysis.applyScorecard, hb, ih ts ts']
      · cases hk : ApplyAnalysis.scoreKeyMap u.category with
        | none =>
            simp [ApplyAnalysis.applyScorecard, hb, hk, ih ts ts']
        | some key =>
            simp only [ApplyAnalysis.applyScorecard, hb, hk, Bool.false_eq_true,
              if_false, ite_false]
            rw [ih]

/-- Truthiness of a keyed entry, the only state information the kill-switch
loop consults. -/
def falsyAt (ks : List (String × JVal)) (k : String) : Bool :=
  isFalsyJ ((alistLookup ks k).getD JVal.jnull)

/-- The kill-switch field update preserves truthiness of the entry. -/
theorem setKsFields_falsy (v : JVal) (s : String) (r : Option String) :
    isFalsyJ (ApplyAnalysis.setKsFields v s r) = isFalsyJ v := by
  cases v with
  | jobj fs =>
      cases r with
      | none => rfl
      | some rr =>
          by_cases h : (rr == "") = true
          · simp [ApplyAnalysis.setKsFields, h, isFalsyJ]
          · simp [ApplyAnalysis.setKsFields, h, isFalsyJ]
  | jnull => rfl
  | jbool b => rfl
  | jnum q => rfl
  | jstr s2 => rfl
  | jarr l => rfl

/-- Truthiness after an in-place update. -/
theorem falsyAt_upsert (ks : List (String × JVal)) (k k' : String) (v : JVal) :
    falsyAt (alistUpsert ks k v) k'
      = if k' = k then isFalsyJ v else falsyAt ks k' := by
  by_cases h : k' = k
  · subst h; simp [falsyAt, alistLookup_upsert_same]
  · simp [falsyAt, alistLookup_upsert_other ks k k' v h, h]

/-- Running the kill-switch loop never changes which entries are truthy: it
only rewrites fields of entries that already exist and are truthy. -/
theorem applyKillSwitches_falsyAt (us : List ApplyAnalysis.KsUpdate) :
    ∀ (ks : List (String × JVal)) (k : String),
      falsyAt (ApplyAnalysis.applyKillSwitches us ks).1 k = falsyAt ks k := by
  induction us with
  | nil => intro ks k; rfl
  | cons u rest ih =>
      intro ks k
      by_cases hb : (u.recommended_status == u.previous_status) = true
      · simp [ApplyAnalysis.applyKillSwitches, hb, ih]
      · cases hk : ApplyAnalysis.ksKeyMap u.name with
        | none => simp [ApplyAnalysis.applyKillSwitches, hb, hk, ih]
        | some key =>
            by_cases hf : isFalsyJ ((alistLookup ks key).getD JVal.jnull) = true
            · simp [ApplyAnalysis.applyKillSwitches, hb, hk, hf, ih]
            · simp only [ApplyAnalysis.applyKillSwitches, hb, hk, hf,
                Bool.false_eq_true, if_false, ite_false]
              rw [ih, falsyAt_upsert]
              by_cases hkk : k = key
              · subst hkk
                simp [setKsFields_falsy, falsyAt]
              · simp [hkk]

/-- The kill-switch change count depends on the state only through entry
truthiness. -/
theorem applyKillSwitches_count_ext (us : List ApplyAnalysis.KsUpdate) :
    ∀ (ks ks' : List (String × JVal)),
      (∀ k, falsyAt ks k = falsyAt ks' k) →
      (ApplyAnalysis.applyKillSwitches us ks).2.1
        = (ApplyAnalysis.applyKillSwitches us ks').2.1 := by
  induction us with
  | nil => intro _ _ _; rfl
  | cons u rest ih =>
      intro ks ks' hkv
      by_cases hb : (u.recommended_status == u.previous_status) = true
      · simp [ApplyAnalysis.applyKillSwitches, hb, ih ks ks' hkv]
      · cases hk : ApplyAnalysis.ksKeyMap u.name with
        | none => simp [ApplyAnalysis.applyKillSwitches, hb, hk, ih ks ks' hkv]
        | some key =>
            have hcur : isFalsyJ ((alistLookup ks key).getD JVal.jnull)
                = isFalsyJ ((alistLookup ks' key).getD JVal.jnull) := hkv key
            by_cases hf : isFalsyJ ((alistLookup ks key).getD JVal.jnull) = true
            · have hf' : isFalsyJ ((alistLookup ks' key).getD JVal.jnull) = true := by
                rw [← hcur]; exact hf
              simp [ApplyAnalysis.applyKillSwitches, hb, hk, hf, hf',
                ih ks ks' hkv]
            · have hf' : ¬ isFalsyJ ((alistLookup ks' key).getD JVal.jnull) = true := by
                rw [← hcur]; exact hf
              simp only [ApplyAnalysis.applyKillSwitches, hb, hk, hf, hf',
                Bool.false_eq_true, if_false, ite_false]
              have hnext : ∀ k, falsyAt
                  (alistUpsert ks key
                    (ApplyAnalysis.setKsFields ((alistLookup ks key).getD JVal.jnull)
                      u.recommended_status u.reasoning)) k
                  = falsyAt
                      (alistUpsert ks' key
                        (ApplyAnalysis.setKsFields ((alistLookup ks' key).getD JVal.jnull)
                          u.recommended_status u.reasoning)) k := by
                intro k
                rw [falsyAt_upsert, falsyAt_upsert]
                by_cases hkk : k = key
                · simp [hkk, setKsFields_falsy, hcur]
                · simp [hkk, hkv k]
              rw [ih _ _ hnext]

/-- With no timeline events and no qualitative text fields in the document,
the change count of one application is the scorecard count plus the
kill-switch count plus one for an applied probability adjustment. -/
theorem applyMain_changes_formula (a : ApplyAnalysis.Analysis)
    (hev : a.events_draft = [])
    (h1 : a.thesis_pulse_assessment = none)
    (h2 : a.stress_interpretation = none)
    (h3 : a.energy_interpretation = none)
    (h4 : a.geopolitical_watchlist = []) :
    ∀ (now : String) (year : Nat) (ti tl : String) (d : ApplyAnalysis.Dashboard)
      (html : String) (hist : List String),
      (ApplyAnalysis.applyMain now year ti tl d a html hist).changes
        = (ApplyAnalysis.applyScorecard a.scorecard_updates d.thesis_scores).2.1
          + (ApplyAnalysis.applyKillSwitches a.kill_switch_updates d.kill_switches).2.1
          + (if (ApplyAnalysis.applyProb a.recommended_probability_adjustment
                a.timestamp).isSome then 1 else 0) := by
  intro now year ti tl d html hist
  simp [ApplyAnalysis.applyMain, hev, h1, h2, h3, h4,
    ApplyAnalysis.replaceParaById, ApplyAnalysis.replaceGeoWatchlist]

/-- State projection of one application: the kill-switch slice is exactly
the output of the kill-switch loop. -/
theorem applyMain_dashboard_ks
    (now : String) (year : Nat) (ti tl : String) (d : ApplyAnalysis.Dashboard)
    (a : ApplyAnalysis.Analysis) (html : String) (hist : List String) :
    (ApplyAnalysis.applyMain now year ti tl d a html hist).dashboard.kill_switches
      = (ApplyAnalysis.applyKillSwitches a.kill_switch_updates d.kill_switches).1 := by
  simp [ApplyAnalysis.applyMain]

/-- C2 counterexample: an opinion document carrying one effective scorecard
delta (Regulatory, previous A, recommended B) applied twice to the same
state blob yields changeCount 1 — not 0 — on the second application: the
skip test compares the document's recommended status with the document's own
recorded previous status, not with the state's current value, so the delta
is re-applied (and re-counted) although the state already holds B. -/
theorem C2_counterexample :
    (let a : ApplyAnalysis.Analysis :=
      { timestamp := "T", run_type := "morning", stress_level := JVal.jnull,
        stress_score := JVal.jnull,
        scorecard_updates := [⟨"Regulatory", "A", "B"⟩],
        kill_switch_updates := [],
        recommended_probability_adjustment := none,
        events_draft := [], thesis_pulse_assessment := none,
        stress_interpretation := none, energy_interpretation := none,
        geopolitical_watchlist := [] }
     let d : ApplyAnalysis.Dashboard :=
      { thesis_scores := [("regulatory", JVal.jobj [("status", JVal.jstr "A")])],
        kill_switches := [], probability := JVal.jnull,
        last_analysis := JVal.jnull }
     let r1 := ApplyAnalysis.applyMain "t1" 2026 "2026-02-25" "FEB 25" d a "" []
     let r2 := ApplyAnalysis.applyMain "t2" 2026 "2026-02-25" "FEB 25"
        r1.dashboard a r1.html r1.history
     r1.changes = 1 ∧ r2.changes = 1 ∧ r2.changes ≠ 0) := by
  exact ⟨rfl, rfl, by decide⟩

/-- C2 (amended): for an opinion document with no timeline events and no
qualitative text fields, the second application's changeCount equals the
first's — the scorecard and kill-switch deltas whose recommended status
differs from the document's recorded previous status, plus one for a
probability adjustment with reasoning, are counted again (the state blob's
current values are never consulted by the skip test), so re-application is a
no-op on the counted state fields but changeCount is not 0 unless the
document carries no effective delta at all. -/
theorem C2_second_application_changes
    (now now2 : String) (year year2 : Nat) (ti ti2 tl tl2 : String)
    (d : ApplyAnalysis.Dashboard) (a : ApplyAnalysis.Analysis)
    (html : String) (hist : List String)
    (hev : a.events_draft = [])
    (h1 : a.thesis_pulse_assessment = none)
    (h2 : a.stress_interpretation = none)
    (h3 : a.energy_interpretation = none)
    (h4 : a.geopolitical_watchlist = []) :
    (ApplyAnalysis.applyMain now2 year2 ti2 tl2
        (ApplyAnalysis.applyMain now year ti tl d a html hist).dashboard a
        (ApplyAnalysis.applyMain now year ti tl d a html hist).html
        (ApplyAnalysis.applyMain now year ti tl d a html hist).history).changes
      = (ApplyAnalysis.applyMain now year ti tl d a html hist).changes := by
  rw [applyMain_changes_formula a hev h1 h2 h3 h4 now2 year2 ti2 tl2
      (ApplyAnalysis.applyMain now year ti tl d a html hist).dashboard
      (ApplyAnalysis.applyMain now year ti tl d a html hist).html
      (ApplyAnalysis.applyMain now year ti tl d a html hist).history,
    applyMain_changes_formula a hev h1 h2 h3 h4 now year ti tl d html hist]
  have hsc := applyScorecard_count_state_blind a.scorecard_updates
    (ApplyAnalysis.applyMain now year ti tl d a html hist).dashboard.thesis_scores
    d.thesis_scores
  have hks : (ApplyAnalysis.applyKillSwitches a.kill_switch_updates
      (ApplyAnalysis.applyMain now year ti tl d a html hist).dashboard.kill_switches).2.1
      = (ApplyAnalysis.applyKillSwitches a.kill_switch_updates d.kill_switches).2.1 := by
    rw [applyMain_dashboard_ks]
    exact applyKillSwitches_count_ext a.kill_switch_updates _ _
      (fun k => applyKillSwitches_falsyAt a.kill_switch_updates d.kill_switches k)
  rw [hsc, hks]

/-- Witness for C2 (amended): a document with one effective scorecard delta
and empty event/text sections has equal change counts on first and second
application (both 1). -/
theorem C2_second_application_changes_witness :
    (ApplyAnalysis.applyMain "t2" 2026 "2026-02-25" "FEB 25"
        (ApplyAnalysis.applyMain "t1" 2026 "2026-02-25" "FEB 25"
          { thesis_scores := [("regulatory", JVal.jobj [("status", JVal.jstr "A")])],
            kill_switches := [], probability := JVal.jnull,
            last_analysis := JVal.jnull }
          { timestamp := "T", run_type := "morning", stress_level := JVal.jnull,
            stress_score := JVal.jnull,
            scorecard_updates := [⟨"Macro", "OK", "STRESSED"⟩],
            kill_switch_updates := [],
            recommended_probability_adjustment := none,
            events_draft := [], thesis_pulse_assessment := none,
            stress_interpretation := none, energy_interpretation := none,
            geopolitical_watchlist := [] } "" []).dashboard
        { timestamp := "T", run_type := "morning", stress_level := JVal.jnull,
          stress_score := JVal.jnull,
          scorecard_updates := [⟨"Macro", "OK", "STRESSED"⟩],
          kill_switch_updates := [],
          recommended_probability_adjustment := none,
          events_draft := [], thesis_pulse_assessment := none,
          stress_interpretation := none, energy_interpretation := none,
          geopolitical_watchlist := [] }
        (ApplyAnalysis.applyMain "t1" 2026 "2026-02-25" "FEB 25"
          { thesis_scores := [("regulatory", JVal.jobj [("status", JVal.jstr "A")])],
            kill_switches := [], probability := JVal.jnull,
            last_analysis := JVal.jnull }
          { timestamp := "T", run_type := "morning", stress_level := JVal.jnull,
            stress_score := JVal.jnull,
            scorecard_updates := [⟨"Macro", "OK", "STRESSED"⟩],
            kill_switch_updates := [],
            recommended_probability_adjustment := none,
            events_draft := [], thesis_pulse_assessment := none,
            stress_interpretation := none, energy_interpretation := none,
            geopolitical_watchlist := [] } "" []).html
        (ApplyAnalysis.applyMain "t1" 2026 "2026-02-25" "FEB 25"
          { thesis_scores := [("regulatory", JVal.jobj [("status", JVal.jstr "A")])],
            kill_switches := [], probability := JVal.jnull,
            last_analysis := JVal.jnull }
          { timestamp := "T", run_type := "morning", stress_level := JVal.jnull,
            stress_score := JVal.jnull,
            scorecard_updates := [⟨"Macro", "OK", "STRESSED"⟩],
            kill_switch_updates := [],
            recommended_probability_adjustment := none,
            events_draft := [], thesis_pulse_assessment := none,
            stress_interpretation := none, energy_interpretation := none,
            geopolitical_watchlist := [] } "" []).history).changes
      = (ApplyAnalysis.applyMain "t1" 2026 "2026-02-25" "FEB 25"
          { thesis_scores := [("regulatory", JVal.jobj [("status", JVal.jstr "A")])],
            kill_switches := [], probability := JVal.jnull,
            last_analysis := JVal.jnull }
          { timestamp := "T", run_type := "morning", stress_level := JVal.jnull,
            stress_score := JVal.jnull,
            scorecard_updates := [⟨"Macro", "OK", "STRESSED"⟩],
            kill_switch_updates := [],
            recommended_probability_adjustment := none,
            events_draft := [], thesis_pulse_assessment := none,
            stress_interpretation := none, energy_interpretation := none,
            geopolitical_watchlist := [] } "" []).changes :=
  C2_second_application_changes "t1" "t2" 2026 2026 "2026-02-25" "2026-02-25"
    "FEB 25" "FEB 25"
    { thesis_scores := [("regulatory", JVal.jobj [("status", JVal.jstr "A")])],
      kill_switches := [], probability := JVal.jnull,
      last_analysis := JVal.jnull }
    { timestamp := "T", run_type := "morning", stress_level := JVal.jnull,
      stress_score := JVal.jnull,
      scorecard_updates := [⟨"Macro", "OK", "STRESSED"⟩],
      kill_switch_updates := [],
      recommended_probability_adjustment := none,
      events_draft := [], thesis_pulse_assessment := none,
      stress_interpretation := none, energy_interpretation := none,
      geopolitical_watchlist := [] } "" [] rfl rfl rfl rfl rfl

end Overwatch
